import Mathlib

/-!
Verification development for the ATRAC playback-context module
(`src/Core/HLE/AtracCtx.cpp`): a shallow embedding of its data model and
operations, plus theorems settling the frozen claims about it.

Machine integers are embedded as `Nat` (for `u32` fields) and `Int` (for
`int` fields), with explicit reductions modulo 2^32 wherever the C++
unsigned arithmetic can wrap or underflow in a way a claim can observe.
Guest memory is a byte function `Nat → Nat` read through little-endian
accessors, mirroring `Memory::Read_U32` and friends.
-/

/-- Reduce a natural to u32 range, as C++ unsigned arithmetic does. -/
def u32 (n : Nat) : Nat := n % 4294967296

/-- u32 subtraction with wraparound (two's complement), for operands below 2^32. -/
def u32sub (a b : Nat) : Nat := (a + 4294967296 - b % 4294967296) % 4294967296

/-- Conversion of a C++ signed value to u32 (two's complement reduction). -/
def u32i (x : Int) : Nat := (x % 4294967296).toNat

/-- Reinterpret a u32 bit pattern as a signed 32-bit value, as C++ int casts do. -/
def toInt32 (n : Nat) : Int :=
  if n % 4294967296 < 2147483648 then (n % 4294967296 : Int)
  else (n % 4294967296 : Int) - 4294967296

/-- Guest memory: a flat byte space addressed by Nat. -/
def Mem : Type := Nat → Nat

/-- Read one byte (Memory::Read_U8 equivalent; bytes are reduced mod 256). -/
def read8 (m : Mem) (a : Nat) : Nat := m a % 256

/-- Little-endian 16-bit read (Memory::Read_U16). -/
def read16 (m : Mem) (a : Nat) : Nat := read8 m a + 256 * read8 m (a + 1)

/-- Little-endian 32-bit read (Memory::Read_U32). -/
def read32 (m : Mem) (a : Nat) : Nat :=
  read8 m a + 256 * read8 m (a + 1) + 65536 * read8 m (a + 2) + 16777216 * read8 m (a + 3)

/-! Chunk magics, from the top of AtracCtx.cpp. -/

def RIFF_CHUNK_MAGIC : Nat := 0x46464952
def RIFF_WAVE_MAGIC : Nat := 0x45564157
def FMT_CHUNK_MAGIC : Nat := 0x20746D66
def DATA_CHUNK_MAGIC : Nat := 0x61746164
def SMPL_CHUNK_MAGIC : Nat := 0x6C706D73
def FACT_CHUNK_MAGIC : Nat := 0x74636166

/-- Modelled from the spec: codec kinds (spec section 3, CodecParameters).
The numeric constants live in a header outside src/; only their
distinctness and being nonzero are observable here. -/
def PSP_MODE_AT_3 : Nat := 0x1000

/-- Modelled from the spec: the ATRAC3+ codec kind constant. -/
def PSP_MODE_AT_3_PLUS : Nat := 0x1001

/-- Modelled from the spec: the two RIFF fmt tags accepted (ATRAC3 and ATRAC3+). -/
def AT3_MAGIC : Nat := 0x0270

/-- Modelled from the spec: the RIFF fmt tag for the ATRAC3+ variant. -/
def AT3_PLUS_MAGIC : Nat := 0xFFFE

/-- Modelled from the spec: BufferState enum values (spec section 3).
The enum lives in a header outside src/; the streamed variants are the
ones whose value has bit 2 set, which is what the STREAMED_MASK test in
the source observes. -/
def ATRAC_STATUS_NO_DATA : Nat := 1

/-- Modelled from the spec: fully resident buffer state. -/
def ATRAC_STATUS_ALL_DATA_LOADED : Nat := 2

/-- Modelled from the spec: halfway (filling whole file) buffer state. -/
def ATRAC_STATUS_HALFWAY_BUFFER : Nat := 3

/-- Modelled from the spec: streamed, no loop. -/
def ATRAC_STATUS_STREAMED_WITHOUT_LOOP : Nat := 4

/-- Modelled from the spec: streamed, loop ending at end of track. -/
def ATRAC_STATUS_STREAMED_LOOP_FROM_END : Nat := 5

/-- Modelled from the spec: streamed, loop with trailer (secondary buffer). -/
def ATRAC_STATUS_STREAMED_LOOP_WITH_TRAILER : Nat := 6

/-- Modelled from the spec: low-level raw-frame mode. -/
def ATRAC_STATUS_LOW_LEVEL : Nat := 8

/-- Modelled from the spec: the sound-system (SAS) mode. -/
def ATRAC_STATUS_FOR_SCESAS : Nat := 16

/-- Modelled from the spec: the mask the source tests to recognize the three
streamed states. -/
def ATRAC_STATUS_STREAMED_MASK : Nat := 4

/-- The STREAMED_MASK membership test used throughout the source. -/
def streamedMaskN (st : Nat) : Prop := st &&& ATRAC_STATUS_STREAMED_MASK = ATRAC_STATUS_STREAMED_MASK

instance (st : Nat) : Decidable (streamedMaskN st) := by
  unfold streamedMaskN
  infer_instance

/-- Modelled from the spec: error taxonomy (spec section 7). The numeric
codes live in a header outside src/; only distinctness is observable. -/
def ATRAC_ERROR_API_FAIL : Nat := 0x80630002

/-- Modelled from the spec: unknown-format failure code. -/
def ATRAC_ERROR_UNKNOWN_FORMAT : Nat := 0x80630006

/-- Modelled from the spec: bad-codec-params failure code. -/
def ATRAC_ERROR_BAD_CODEC_PARAMS : Nat := 0x80630007

/-- Modelled from the spec: size-too-small failure code. -/
def ATRAC_ERROR_SIZE_TOO_SMALL : Nat := 0x80630011

/-- Modelled from the spec: bad first reset size failure code. -/
def ATRAC_ERROR_BAD_FIRST_RESET_SIZE : Nat := 0x80630016

/-- Modelled from the spec: bad second reset size failure code. -/
def ATRAC_ERROR_BAD_SECOND_RESET_SIZE : Nat := 0x80630017

/-- Modelled from the spec: add-data-too-big failure code. -/
def ATRAC_ERROR_ADD_DATA_IS_TOO_BIG : Nat := 0x80630018

/-- Modelled from the spec: second-buffer-not-needed failure code. -/
def ATRAC_ERROR_SECOND_BUFFER_NOT_NEEDED : Nat := 0x80630022

/-- Modelled from the spec: all-data-decoded (expected end-of-stream) code. -/
def ATRAC_ERROR_ALL_DATA_DECODED : Nat := 0x80630024

/-- Modelled from the spec: AA3 invalid-data failure code. -/
def ATRAC_ERROR_AA3_INVALID_DATA : Nat := 0x80631003

/-- Modelled from the spec: AA3 size-too-small failure code. -/
def ATRAC_ERROR_AA3_SIZE_TOO_SMALL : Nat := 0x80631004

/-- Modelled from the spec: illegal-address kernel error (invalid buffer address). -/
def SCE_KERNEL_ERROR_ILLEGAL_ADDRESS : Nat := 0x80000103

/-- Modelled from the spec: RemainingFrames sentinel, all data resident. -/
def PSP_ATRAC_ALLDATA_IS_ON_MEMORY : Int := -1

/-- Modelled from the spec: RemainingFrames sentinel, non-looping stream with
trailing data on disk. -/
def PSP_ATRAC_NONLOOP_STREAM_DATA_IS_ON_MEMORY : Int := -2

/-- Modelled from the spec: RemainingFrames sentinel, looping stream with
trailing data on disk. -/
def PSP_ATRAC_LOOP_STREAM_DATA_IS_ON_MEMORY : Int := -3

/-- One loop-point record of the smpl chunk (AtracLoopInfo in the header;
fields are C++ ints filled from u32 reads). -/
structure AtracLoopInfo where
  cuePointID : Int
  type : Int
  startSample : Int
  endSample : Int
  fraction : Int
  playCount : Int
deriving Repr, DecidableEq

/-- The all-zero loop record produced by vector resize value-initialization. -/
def defaultLoopInfo : AtracLoopInfo := ⟨0, 0, 0, 0, 0, 0⟩

/-- One buffer descriptor (the source's first_ / second_ member struct):
guest address, resident bytes, ring write offset, advisory writable bytes,
consumed file offset, and full logical file size. All fields are u32. -/
structure AtracBuf where
  addr : Nat
  size : Nat
  offset : Nat
  writableBytes : Nat
  fileoffset : Nat
  filesize : Nat
deriving Repr, DecidableEq

/-- The playback context state: every Atrac:: member field the translated
operations read or write. dataBuf_ is reduced to its presence bit
(hasDataBuf); its contents live in guest memory / the memory capability
and are outside the state the claims observe. -/
structure Atrac where
  codecType : Nat
  channels : Nat
  outputChannels : Nat
  jointStereo : Nat
  atracID : Nat
  first : AtracBuf
  second : AtracBuf
  bufferMaxSize : Nat
  currentSample : Int
  endSample : Int
  firstSampleOffset : Int
  dataOff : Nat
  decodePos : Nat
  bufferPos : Nat
  bitrate : Nat
  bytesPerFrame : Nat
  loopinfo : List AtracLoopInfo
  loopStartSample : Int
  loopEndSample : Int
  loopNum : Int
  bufferState : Nat
  ignoreDataBuf : Bool
  bufferValidBytes : Nat
  bufferHeaderSize : Nat
  hasDataBuf : Bool
  contextValid : Bool
deriving Repr, DecidableEq

/-- A fresh context: everything zeroed / reset, state NoData. -/
def atracInit : Atrac where
  codecType := 0
  channels := 2
  outputChannels := 2
  jointStereo := 0
  atracID := 0
  first := ⟨0, 0, 0, 0, 0, 0⟩
  second := ⟨0, 0, 0, 0, 0, 0⟩
  bufferMaxSize := 0
  currentSample := 0
  endSample := -1
  firstSampleOffset := 0
  dataOff := 0
  decodePos := 0
  bufferPos := 0
  bitrate := 0
  bytesPerFrame := 0
  loopinfo := []
  loopStartSample := -1
  loopEndSample := -1
  loopNum := 0
  bufferState := ATRAC_STATUS_NO_DATA
  ignoreDataBuf := false
  bufferValidBytes := 0
  bufferHeaderSize := 0
  hasDataBuf := false
  contextValid := false

/-- Modelled from the spec: SamplesPerFrame (spec section 4.2) — the
codec-fixed frame sample count; the header defining it is not under src/.
ATRAC3+ frames decode to 2048 samples, ATRAC3 frames to 1024. -/
def samplesPerFrame (s : Atrac) : Nat :=
  if s.codecType = PSP_MODE_AT_3_PLUS then 2048 else 1024

/-- Modelled from the spec: FirstOffsetExtra (decode-latency-extra,
spec section 4.2 and glossary) — the codec-fixed warm-up sample count; the
header defining it is not under src/. 368 samples for ATRAC3+, 69 for ATRAC3. -/
def firstOffsetExtra (s : Atrac) : Nat :=
  if s.codecType = PSP_MODE_AT_3_PLUS then 368 else 69

/-- Modelled from the spec: file_offset_for_sample (spec section 4.2) — the
linear sample-to-byte map with bytes-per-frame and samples-per-frame, the
first-sample-offset and the decode latency folded in; the header defining
FileOffsetBySample is not under src/. Signed arithmetic truncates toward
zero and the result is reinterpreted as u32, like the source's int math. -/
def fileOffsetBySample (s : Atrac) (sample : Int) : Nat :=
  let offsetSamples : Int := sample + s.firstSampleOffset + (firstOffsetExtra s : Int)
  u32i ((s.dataOff : Int) + (s.bytesPerFrame : Int) +
    (Int.tdiv offsetSamples (samplesPerFrame s : Int) - 1) * (s.bytesPerFrame : Int))

/-- Modelled from the spec: decode_position_for_sample (spec section 4.2);
the header defining DecodePosBySample is not under src/. -/
def decodePosBySample (s : Atrac) (sample : Int) : Nat :=
  let offsetSamples : Int := sample + s.firstSampleOffset + (firstOffsetExtra s : Int)
  u32i (Int.tdiv offsetSamples (samplesPerFrame s : Int) * (s.bytesPerFrame : Int))

/-- Modelled from the spec: StreamBufferEnd (spec section 3,
RingBufferCursors) — the ring's logical end: the largest frame-aligned
span of the declared capacity past the one-time header region, plus that
header; the header file defining it is not under src/. -/
def streamBufferEnd (s : Atrac) : Nat :=
  u32sub s.bufferMaxSize s.bufferHeaderSize / s.bytesPerFrame * s.bytesPerFrame
    + s.bufferHeaderSize

/-- Modelled from the spec: UpdateBufferState (spec sections 3 and 4.3) —
classification into fully-resident vs streamed states: a declared capacity
covering the logical file gives AllDataLoaded (or HalfwayBuffer while
bytes are still missing); a smaller capacity streams, split by loop
geometry into no-loop, loop-from-end, and loop-with-trailer. The header
defining it is not under src/. -/
def updateBufferState (s : Atrac) : Atrac :=
  if s.bufferMaxSize ≥ s.first.filesize then
    if s.first.size < s.first.filesize then
      {s with bufferState := ATRAC_STATUS_HALFWAY_BUFFER}
    else
      {s with bufferState := ATRAC_STATUS_ALL_DATA_LOADED}
  else
    if s.loopEndSample ≤ 0 then
      {s with bufferState := ATRAC_STATUS_STREAMED_WITHOUT_LOOP}
    else if s.loopEndSample = s.endSample + s.firstSampleOffset + (firstOffsetExtra s : Int) then
      {s with bufferState := ATRAC_STATUS_STREAMED_LOOP_FROM_END}
    else
      {s with bufferState := ATRAC_STATUS_STREAMED_LOOP_WITH_TRAILER}

/-- Atrac::AnalyzeReset (AtracCtx.cpp lines 161-173). -/
def analyzeReset (s : Atrac) : Atrac :=
  {s with codecType := 0, currentSample := 0, endSample := -1, loopNum := 0,
          loopinfo := [], loopStartSample := -1, loopEndSample := -1,
          decodePos := 0, bufferPos := 0, channels := 2}

/-- The guest-visible context record fields written by
Atrac::WriteContextToPSPMem (AtracCtx.cpp lines 187-224). Field layout in
guest memory is outside this embedding; the record collects the values
stored. -/
structure SceAtracContextInfo where
  buffer : Nat
  bufferByte : Nat
  secondBuffer : Nat
  secondBufferByte : Nat
  codec : Nat
  loopNum : Int
  loopStart : Nat
  loopEnd : Nat
  state : Nat
  samplesPerChan : Nat
  sampleSize : Nat
  numChan : Nat
  dataOff : Nat
  endSample : Int
  dataEnd : Nat
  curOff : Nat
  decodePos : Nat
  streamDataByte : Nat
  atracID : Nat
deriving Repr, DecidableEq

/-- The all-zero context record (used only as an Option default). -/
def sceAtracContextZero : SceAtracContextInfo :=
  ⟨0, 0, 0, 0, 0, 0, 0, 0, 0, 0, 0, 0, 0, 0, 0, 0, 0, 0, 0⟩

/-- Atrac::WriteContextToPSPMem (AtracCtx.cpp lines 187-224): none when no
guest context record exists (the early return), otherwise the record
written. -/
def writeContextToPSPMem (s : Atrac) : Option SceAtracContextInfo :=
  if ¬ s.contextValid then none
  else some {
    buffer := s.first.addr
    bufferByte := s.bufferMaxSize
    secondBuffer := s.second.addr
    secondBufferByte := s.second.size
    codec := s.codecType
    loopNum := s.loopNum
    loopStart := if s.loopStartSample > 0 then u32i s.loopStartSample else 0
    loopEnd := if s.loopEndSample > 0 then u32i s.loopEndSample else 0
    state := s.bufferState
    samplesPerChan :=
      if s.firstSampleOffset ≠ 0 then u32i (s.firstSampleOffset + (firstOffsetExtra s : Int))
      else samplesPerFrame s
    sampleSize := s.bytesPerFrame
    numChan := s.channels
    dataOff := s.dataOff
    endSample := s.endSample + s.firstSampleOffset + (firstOffsetExtra s : Int)
    dataEnd := s.first.filesize
    curOff := s.first.fileoffset
    decodePos := decodePosBySample s s.currentSample
    streamDataByte := u32sub s.first.size s.dataOff
    atracID := s.atracID }

/-- The WAVE-magic search loop of Atrac::Analyze (AtracCtx.cpp lines
258-270): walks RIFF sub-chunks until the WAVE sub-magic appears, failing
when the bounds run past the supplied region or a non-RIFF chunk appears.
Fuel bounds the recursion; each iteration advances the offset by at least
8 while staying below the region size, so fuel equal to the region size
is never exhausted. -/
def findWave (m : Mem) (addr size : Nat) : Nat → Nat → Except Nat Nat
  | 0, offset => .ok offset
  | fuel + 1, offset =>
    if read32 m (addr + offset) ≠ RIFF_WAVE_MAGIC then
      let chunk := read32 m (addr + offset - 4)
      let offset' := u32 (offset + chunk + chunk % 2)
      if offset' + 12 > size then .error ATRAC_ERROR_SIZE_TOO_SMALL
      else if read32 m (addr + offset') ≠ RIFF_CHUNK_MAGIC then
        .error ATRAC_ERROR_UNKNOWN_FORMAT
      else findWave m addr size fuel (offset' + 8)
    else .ok offset

/-- The fmt-chunk case of Atrac::Analyze (AtracCtx.cpp lines 297-335). -/
def processFmt (m : Mem) (addr offset chunkSize : Nat) (s : Atrac) : Except Nat Atrac :=
  if s.codecType ≠ 0 then .error ATRAC_ERROR_UNKNOWN_FORMAT
  else
    let fmtTag := read16 m (addr + offset)
    if chunkSize < 32 ∨ (fmtTag = AT3_PLUS_MAGIC ∧ chunkSize < 52) then
      .error ATRAC_ERROR_UNKNOWN_FORMAT
    else if fmtTag ≠ AT3_MAGIC ∧ fmtTag ≠ AT3_PLUS_MAGIC then
      .error ATRAC_ERROR_UNKNOWN_FORMAT
    else
      let codec := if fmtTag = AT3_MAGIC then PSP_MODE_AT_3 else PSP_MODE_AT_3_PLUS
      let chans := read16 m (addr + offset + 2)
      if chans ≠ 1 ∧ chans ≠ 2 then .error ATRAC_ERROR_UNKNOWN_FORMAT
      else if read32 m (addr + offset + 4) ≠ 44100 then .error ATRAC_ERROR_UNKNOWN_FORMAT
      else
        let bitrate := u32 (read32 m (addr + offset + 8) * 8)
        let bpf := read16 m (addr + offset + 12)
        if bpf = 0 then .error ATRAC_ERROR_UNKNOWN_FORMAT
        else
          let joint := if fmtTag = AT3_MAGIC then read32 m (addr + offset + 24) else s.jointStereo
          .ok {s with codecType := codec, channels := chans, bitrate := bitrate,
                      bytesPerFrame := bpf, jointStereo := joint}

/-- The fact-chunk case of Atrac::Analyze (AtracCtx.cpp lines 337-347);
returns the updated state and the sampleOffsetAdjust local. -/
def processFact (m : Mem) (addr offset chunkSize : Nat) (s : Atrac) (adj : Int) :
    Atrac × Int :=
  let s := {s with endSample := toInt32 (read32 m (addr + offset))}
  let s := if chunkSize ≥ 8 then
      {s with firstSampleOffset := toInt32 (read32 m (addr + offset + 4))}
    else s
  let adj := if chunkSize ≥ 12 then
      toInt32 (u32sub (u32i s.firstSampleOffset) (read32 m (addr + offset + 8)))
    else adj
  (s, adj)

/-- One 24-byte loop record read inside the smpl-chunk loop of
Atrac::Analyze (AtracCtx.cpp lines 366-372), at base address a. -/
def smplLoopRecord (m : Mem) (a : Nat) : AtracLoopInfo where
  cuePointID := toInt32 (read32 m a)
  type := toInt32 (read32 m (a + 4))
  startSample := toInt32 (read32 m (a + 8))
  endSample := toInt32 (read32 m (a + 12))
  fraction := toInt32 (read32 m (a + 16))
  playCount := toInt32 (read32 m (a + 20))

/-- The loop-record reading loop of Atrac::Analyze (AtracCtx.cpp lines
362-377): record index i is read while i < n and 36 + i < chunkSize, with
a bad-codec-params failure the first time a read record has start at or
past end; entries past the guard keep the zero value that the resize gave
them. The remaining entry count n - i is the structural recursion
argument. -/
def buildLoopsFrom (m : Mem) (loopBase chunkSize : Nat) :
    Nat → Nat → Except Nat (List AtracLoopInfo)
  | 0, _ => .ok []
  | remaining + 1, i =>
    if 36 + i < chunkSize then
      let r := smplLoopRecord m (loopBase + 24 * i)
      if r.startSample ≥ r.endSample then .error ATRAC_ERROR_BAD_CODEC_PARAMS
      else
        match buildLoopsFrom m loopBase chunkSize remaining (i + 1) with
        | .error e => .error e
        | .ok rest => .ok (r :: rest)
    else .ok (List.replicate (remaining + 1) defaultLoopInfo)

/-- The full loop-record read, from index 0 with all n declared entries
remaining. -/
def buildLoops (m : Mem) (loopBase chunkSize n : Nat) : Except Nat (List AtracLoopInfo) :=
  buildLoopsFrom m loopBase chunkSize n 0

/-- The smpl-chunk case of Atrac::Analyze (AtracCtx.cpp lines 349-378). -/
def processSmpl (m : Mem) (addr offset chunkSize : Nat) (s : Atrac) : Except Nat Atrac :=
  if chunkSize < 32 then .error ATRAC_ERROR_UNKNOWN_FORMAT
  else
    let checkNumLoops := toInt32 (read32 m (addr + offset + 28))
    if checkNumLoops ≠ 0 ∧ chunkSize < 36 + 20 then .error ATRAC_ERROR_UNKNOWN_FORMAT
    else if checkNumLoops < 0 then .error ATRAC_ERROR_UNKNOWN_FORMAT
    else
      match buildLoops m (addr + offset + 36) chunkSize checkNumLoops.toNat with
      | .error e => .error e
      | .ok l => .ok {s with loopinfo := l}

/-- Locals threaded through the chunk scan of Atrac::Analyze. -/
structure ScanState where
  s : Atrac
  bfoundData : Bool
  dataChunkSize : Nat
  sampleOffsetAdjust : Int

/-- The top-level chunk iteration of Atrac::Analyze (AtracCtx.cpp lines
282-393): while the region still holds a chunk header and no data chunk
was found, dispatch on the chunk magic. Fuel bounds the recursion; every
iteration advances the offset by at least 8 under the maxSize bound, so
fuel equal to maxSize is never exhausted. -/
def scanChunks (m : Mem) (addr maxSize : Nat) :
    Nat → Nat → ScanState → Except Nat ScanState
  | 0, _, st => .ok st
  | fuel + 1, offset, st =>
    if maxSize ≥ offset + 8 ∧ st.bfoundData = false then
      let chunkMagic := read32 m (addr + offset)
      let chunkSize0 := read32 m (addr + offset + 4)
      let chunkSize := chunkSize0 + chunkSize0 % 2
      let offset := offset + 8
      if chunkSize > maxSize - offset then .ok st
      else if chunkMagic = FMT_CHUNK_MAGIC then
        match processFmt m addr offset chunkSize st.s with
        | .error e => .error e
        | .ok s' => scanChunks m addr maxSize fuel (offset + chunkSize) {st with s := s'}
      else if chunkMagic = FACT_CHUNK_MAGIC then
        let (s', adj') := processFact m addr offset chunkSize st.s st.sampleOffsetAdjust
        scanChunks m addr maxSize fuel (offset + chunkSize)
          {st with s := s', sampleOffsetAdjust := adj'}
      else if chunkMagic = SMPL_CHUNK_MAGIC then
        match processSmpl m addr offset chunkSize st.s with
        | .error e => .error e
        | .ok s' => scanChunks m addr maxSize fuel (offset + chunkSize) {st with s := s'}
      else if chunkMagic = DATA_CHUNK_MAGIC then
        let s' := {st.s with dataOff := offset}
        let s' := if s'.first.filesize < u32 (offset + chunkSize) then
            {s' with first := {s'.first with filesize := u32 (offset + chunkSize)}}
          else s'
        scanChunks m addr maxSize fuel (offset + chunkSize)
          {st with s := s', bfoundData := true, dataChunkSize := chunkSize}
      else
        scanChunks m addr maxSize fuel (offset + chunkSize) st
    else .ok st

/-- Atrac::Analyze (AtracCtx.cpp lines 226-424). validAddr stands for the
Memory::IsValidAddress check against the memory capability. Returns the
result code (0 on success) and the context state. -/
def analyze (m : Mem) (addr size : Nat) (validAddr : Bool) (s : Atrac) : Nat × Atrac :=
  let s := {s with first := {s.first with addr := addr, size := size}}
  let s := analyzeReset s
  if size < 72 then (ATRAC_ERROR_SIZE_TOO_SMALL, s)
  else if ¬ validAddr then (SCE_KERNEL_ERROR_ILLEGAL_ADDRESS, s)
  else if read32 m addr ≠ RIFF_CHUNK_MAGIC then (ATRAC_ERROR_UNKNOWN_FORMAT, s)
  else
    let s := {s with firstSampleOffset := 0}
    match findWave m addr size size 8 with
    | .error e => (e, s)
    | .ok offsetW =>
      let offset := offsetW + 4
      let filesize := u32 (read32 m (addr + offset - 8) + 8)
      let s := {s with first := {s.first with filesize := filesize}}
      let maxSize := max s.first.filesize s.first.size
      match scanChunks m addr maxSize maxSize offset ⟨s, false, 0, 0⟩ with
      | .error e => (e, s)
      | .ok st =>
        let s := st.s
        if s.codecType = 0 then (ATRAC_ERROR_UNKNOWN_FORMAT, s)
        else if st.bfoundData = false then (ATRAC_ERROR_SIZE_TOO_SMALL, s)
        else
          let s :=
            if s.loopinfo.length > 0 then
              {s with
                loopStartSample := (s.loopinfo.headD defaultLoopInfo).startSample
                  + (firstOffsetExtra s : Int) + st.sampleOffsetAdjust,
                loopEndSample := (s.loopinfo.headD defaultLoopInfo).endSample
                  + (firstOffsetExtra s : Int) + st.sampleOffsetAdjust}
            else {s with loopStartSample := -1, loopEndSample := -1}
          let s :=
            if s.endSample ≤ (0 : Int) ∧ s.bytesPerFrame ≠ 0 then
              {s with endSample :=
                toInt32 (u32 (st.dataChunkSize / s.bytesPerFrame * samplesPerFrame s))
                  - (s.firstSampleOffset + (firstOffsetExtra s : Int))}
            else s
          let s := {s with endSample := s.endSample - 1}
          if s.loopEndSample ≠ -1 ∧
              s.loopEndSample > s.endSample + s.firstSampleOffset + (firstOffsetExtra s : Int) then
            (ATRAC_ERROR_BAD_CODEC_PARAMS, s)
          else
            (0, s)

/-- The embedded-tag-size decode of Atrac::AnalyzeAA3 (AtracCtx.cpp line
445): a bitwise OR of the four bytes at offsets 9, 8, 7, 6, shifted 0, 7,
14 and 21 bits, MSB first. -/
def tagSizeAA3 (m : Mem) (addr : Nat) : Nat :=
  read8 m (addr + 9) ||| (read8 m (addr + 8) <<< 7) |||
    (read8 m (addr + 7) <<< 14) ||| (read8 m (addr + 6) <<< 21)

/-- Spec-worded alternative of the tag-size decode, for refinement
comparison only: a 4-byte MSB-first quantity in which each byte
contributes only its low 7 bits (spec section 4.1, AA3 variant). -/
def tagSizeAA3SpecWords (m : Mem) (addr : Nat) : Nat :=
  (read8 m (addr + 9) % 128) + (read8 m (addr + 8) % 128) * 128 +
    (read8 m (addr + 7) % 128) * 16384 + (read8 m (addr + 6) % 128) * 2097152

/-- The sample-rate table of Atrac::AnalyzeAA3 (line 458); the source
array has six initializers for an index range of eight, read through a
defaulting lookup here. -/
def at3SampleRates : List Nat := [32000, 44100, 48000, 88200, 96000, 0]

/-- The common tail of Atrac::AnalyzeAA3 (AtracCtx.cpp lines 482-489):
data origin, zero first-sample offset, end-sample estimate,
inclusive-minus-one adjustment. -/
def aa3Finish (s : Atrac) (tagSize : Nat) : Nat × Atrac :=
  let s := {s with dataOff := u32 (10 + tagSize + 96)}
  let s := {s with firstSampleOffset := 0}
  let s : Atrac :=
    if s.endSample < (0 : Int) ∧ s.bytesPerFrame ≠ 0 then
      {s with endSample :=
                toInt32 (u32 (u32sub s.first.filesize s.dataOff / s.bytesPerFrame * samplesPerFrame s))}
    else s
  let s := {s with endSample := s.endSample - 1}
  (0, s)

/-- Atrac::AnalyzeAA3 (AtracCtx.cpp lines 426-490), parameterized on the
tag-size decoder so the spec-worded variant can be compared against the
source's. Returns the result code (0 on success) and the state. -/
def analyzeAA3With (tag : Mem → Nat → Nat) (m : Mem) (addr size filesize : Nat)
    (s : Atrac) : Nat × Atrac :=
  let s := {s with first := {s.first with addr := addr, size := size, filesize := filesize}}
  let s := analyzeReset s
  if size < 10 then (ATRAC_ERROR_AA3_SIZE_TOO_SMALL, s)
  else if read8 m addr ≠ 101 ∨ read8 m (addr + 1) ≠ 97 ∨ read8 m (addr + 2) ≠ 51 then
    (ATRAC_ERROR_AA3_INVALID_DATA, s)
  else
    let tagSize := tag m addr
    if size < tagSize + 36 then (ATRAC_ERROR_AA3_SIZE_TOO_SMALL, s)
    else
      let b := addr + 10 + tagSize
      if read8 m b ≠ 69 ∨ read8 m (b + 1) ≠ 65 ∨ read8 m (b + 2) ≠ 51 then
        (ATRAC_ERROR_AA3_INVALID_DATA, s)
      else
        let codecParams := read8 m (b + 35) ||| (read8 m (b + 34) <<< 8) |||
          (read8 m (b + 35) <<< 16)
        let kind := read8 m (b + 32)
        if kind = 0 then
          let bpf := (codecParams &&& 0x03FF) * 8
          let s := {s with
                    codecType := PSP_MODE_AT_3,
                    bytesPerFrame := bpf,
                    bitrate := u32 (at3SampleRates.getD ((codecParams >>> 13) &&& 7) 0 * bpf * 8) / 1024,
                    channels := 2,
                    jointStereo := (codecParams >>> 17) &&& 1}
          aa3Finish s tagSize
        else if kind = 1 then
          let bpf := (codecParams &&& 0x03FF) * 8 + 8
          let s := {s with
                    codecType := PSP_MODE_AT_3_PLUS,
                    bytesPerFrame := bpf,
                    bitrate := u32 (at3SampleRates.getD ((codecParams >>> 13) &&& 7) 0 * bpf * 8) / 2048,
                    channels := (codecParams >>> 10) &&& 7}
          aa3Finish s tagSize
        else
          (ATRAC_ERROR_AA3_INVALID_DATA, s)

/-- Atrac::AnalyzeAA3 exactly as in the source (tag size from the bitwise
OR of full bytes). -/
def analyzeAA3 (m : Mem) (addr size filesize : Nat) (s : Atrac) : Nat × Atrac :=
  analyzeAA3With tagSizeAA3 m addr size filesize s

/-- The AnalyzeAA3 the spec's words describe, differing only in masking
each tag-size byte to its low 7 bits; used to compare against the source
behavior. -/
def analyzeAA3SpecWords (m : Mem) (addr size filesize : Nat) (s : Atrac) : Nat × Atrac :=
  analyzeAA3With tagSizeAA3SpecWords m addr size filesize s

/-- Atrac::CalculateStreamInfo (AtracCtx.cpp lines 492-543): recomputes
first_.offset and first_.writableBytes from the buffer state and returns
the file read offset the next refill should use. -/
def calculateStreamInfo (s : Atrac) : Atrac × Nat :=
  if s.bufferState = ATRAC_STATUS_ALL_DATA_LOADED then
    ({s with first := {s.first with offset := 0, writableBytes := 0}}, 0)
  else if s.bufferState = ATRAC_STATUS_HALFWAY_BUFFER then
    ({s with first := {s.first with
                        offset := s.first.fileoffset,
                        writableBytes := u32sub s.first.filesize s.first.fileoffset}},
      s.first.fileoffset)
  else
    let bufferEnd := streamBufferEnd s
    let bufferValidExtended := u32 (s.bufferPos + s.bufferValidBytes)
    let offA := if bufferValidExtended < bufferEnd then bufferValidExtended
      else u32sub bufferValidExtended bufferEnd
    let wbA := if bufferValidExtended < bufferEnd then u32sub bufferEnd bufferValidExtended
      else u32sub s.bufferPos (u32sub bufferValidExtended bufferEnd)
    let roB := if s.first.fileoffset ≥ s.first.filesize then
        (if s.bufferState = ATRAC_STATUS_STREAMED_WITHOUT_LOOP then 0
         else fileOffsetBySample s (s.loopStartSample - (firstOffsetExtra s : Int)
           - s.firstSampleOffset - (samplesPerFrame s : Int) * 2))
      else s.first.fileoffset
    let offB := if s.first.fileoffset ≥ s.first.filesize ∧
        s.bufferState = ATRAC_STATUS_STREAMED_WITHOUT_LOOP then 0 else offA
    let wbB := if s.first.fileoffset ≥ s.first.filesize ∧
        s.bufferState = ATRAC_STATUS_STREAMED_WITHOUT_LOOP then 0 else wbA
    let wbC := if u32 (roB + wbB) > s.first.filesize then u32sub s.first.filesize roB else wbB
    let offD := if u32 (offB + wbC) > s.bufferMaxSize then 0 else offB
    let wbD := if u32 (offB + wbC) > s.bufferMaxSize then s.bufferMaxSize else wbC
    ({s with first := {s.first with offset := offD, writableBytes := wbD}}, roB)

/-- The buffer-descriptor setup of Atrac::SetData (AtracCtx.cpp lines
624-637): clamp the resident size to the file size, reset the derived
state, and classify the buffer state. ResetData's effects on the owned
store and decoder reduce to the presence bit and flags. -/
def setDataClamp (s : Atrac) (buffer readSize bufferSize : Nat) : Atrac :=
  let s := {s with first := {s.first with addr := buffer, size := readSize}}
  let s := if s.first.size > s.first.filesize then
      {s with first := {s.first with size := s.first.filesize}}
    else s
  let s := {s with first := {s.first with fileoffset := s.first.size}}
  let s := {s with bufferMaxSize := bufferSize}
  let s := {s with first := {s.first with offset := s.first.size}}
  {s with
   hasDataBuf := false, ignoreDataBuf := false,
   bufferState := ATRAC_STATUS_NO_DATA}

/-- The buffer-descriptor setup then the state classification. -/
def setDataPrepare (s : Atrac) (buffer readSize bufferSize : Nat) : Atrac :=
  updateBufferState (setDataClamp s buffer readSize bufferSize)

/-- The tail of Atrac::SetData (AtracCtx.cpp lines 645-670) once the
codec type was accepted: pass-through flag, ring cursor initialization
for streamed states, store allocation and decoder creation. -/
def setDataFinish (s : Atrac) : Atrac :=
  let s : Atrac := if s.bufferState = ATRAC_STATUS_ALL_DATA_LOADED ∨
      s.bufferState = ATRAC_STATUS_HALFWAY_BUFFER then
      {s with ignoreDataBuf := true}
    else s
  let s : Atrac := if s.bufferState = ATRAC_STATUS_STREAMED_WITHOUT_LOOP ∨
      s.bufferState = ATRAC_STATUS_STREAMED_LOOP_FROM_END ∨
      s.bufferState = ATRAC_STATUS_STREAMED_LOOP_WITH_TRAILER then
      let s1 := {s with bufferHeaderSize := s.dataOff}
      let s2 := {s1 with bufferPos := u32 (s1.dataOff + s1.bytesPerFrame)}
      {s2 with bufferValidBytes := u32sub s2.first.size s2.bufferPos}
    else s
  let s := {s with hasDataBuf := true}
  {s with decodePos := 0}

/-- Atrac::SetData (AtracCtx.cpp lines 623-671). The data-store allocation
and guest-memory copy act on memory outside this state. Returns the
result code (successCode on success) and the state. -/
def setData (s : Atrac) (buffer readSize bufferSize successCode : Nat) : Nat × Atrac :=
  let s := setDataPrepare s buffer readSize bufferSize
  if s.codecType ≠ PSP_MODE_AT_3 ∧ s.codecType ≠ PSP_MODE_AT_3_PLUS then
    (ATRAC_ERROR_UNKNOWN_FORMAT, {s with bufferState := ATRAC_STATUS_NO_DATA})
  else
    (successCode, setDataFinish s)

/-- Atrac::SetSecondBuffer (AtracCtx.cpp lines 673-689). -/
def setSecondBuffer (s : Atrac) (secondBuffer secondBufferSize : Nat) : Nat × Atrac :=
  let secondFileOffset := fileOffsetBySample s (s.loopEndSample - s.firstSampleOffset)
  let desiredSize := u32sub s.first.filesize secondFileOffset
  if secondBufferSize < desiredSize ∧ secondBufferSize < s.bytesPerFrame * 3 then
    (ATRAC_ERROR_SIZE_TOO_SMALL, s)
  else if s.bufferState ≠ ATRAC_STATUS_STREAMED_LOOP_WITH_TRAILER then
    (ATRAC_ERROR_SECOND_BUFFER_NOT_NEEDED, s)
  else
    (0, {s with second := {s.second with
                            addr := secondBuffer, size := secondBufferSize,
                            fileoffset := secondFileOffset}})

/-- Atrac::SeekToSample / ForceSeekToSample (AtracCtx.cpp lines 772-804):
the decoder history prefill only feeds the external decoder capability;
the context state change is the current-sample assignment. -/
def seekToSample (s : Atrac) (sample : Int) : Atrac :=
  {s with currentSample := sample}

/-- Atrac::RemainingFrames (AtracCtx.cpp lines 806-839). -/
def remainingFrames (s : Atrac) : Int :=
  if s.bufferState = ATRAC_STATUS_ALL_DATA_LOADED then PSP_ATRAC_ALLDATA_IS_ON_MEMORY
  else
    let currentFileOffset := fileOffsetBySample s
      (s.currentSample - (samplesPerFrame s : Int) + (firstOffsetExtra s : Int))
    if s.first.fileoffset ≥ s.first.filesize ∧
        s.bufferState = ATRAC_STATUS_STREAMED_WITHOUT_LOOP then
      PSP_ATRAC_NONLOOP_STREAM_DATA_IS_ON_MEMORY
    else if s.first.fileoffset ≥ s.first.filesize ∧
        s.bufferState = ATRAC_STATUS_STREAMED_LOOP_WITH_TRAILER ∧
        s.currentSample > s.loopEndSample - (firstOffsetExtra s : Int) - s.firstSampleOffset then
      PSP_ATRAC_NONLOOP_STREAM_DATA_IS_ON_MEMORY
    else if s.first.fileoffset ≥ s.first.filesize ∧ streamedMaskN s.bufferState ∧
        s.loopNum = 0 then
      PSP_ATRAC_LOOP_STREAM_DATA_IS_ON_MEMORY
    else if streamedMaskN s.bufferState then
      (s.bufferValidBytes / s.bytesPerFrame : Nat)
    else
      let remainingBytes := toInt32 (u32sub s.first.fileoffset currentFileOffset)
      if remainingBytes < 0 then 0
      else Int.tdiv remainingBytes (s.bytesPerFrame : Int)

/-- Atrac::ConsumeFrame (AtracCtx.cpp lines 841-855). -/
def consumeFrame (s : Atrac) : Atrac :=
  let s := {s with bufferPos := u32 (s.bufferPos + s.bytesPerFrame)}
  let s := if streamedMaskN s.bufferState then
      (if s.bufferValidBytes > s.bytesPerFrame then
        {s with bufferValidBytes := s.bufferValidBytes - s.bytesPerFrame}
      else {s with bufferValidBytes := 0})
    else s
  if s.bufferPos ≥ streamBufferEnd s then
    {s with bufferPos := u32sub s.bufferPos (streamBufferEnd s), bufferHeaderSize := 0}
  else s

/-- The cursor-advance body of Atrac::AddStreamData (AtracCtx.cpp lines
705-722) once the byte count was accepted: consume the read offset,
advance the resident size with its all-loaded promotion, the ring write
offset and the valid-byte count. -/
def addStreamDataCommit (s1 : Atrac) (readOffset bytesToAdd : Nat) : Atrac :=
  let s2 : Atrac := if bytesToAdd > 0 then
      let addbytes := min bytesToAdd (u32sub s1.first.filesize readOffset)
      {s1 with first := {s1.first with fileoffset := u32 (readOffset + addbytes)}}
    else s1
  let s3 := {s2 with first := {s2.first with size := u32 (s2.first.size + bytesToAdd)}}
  let s4 : Atrac := if s3.first.size ≥ s3.first.filesize then
      let s' := {s3 with first := {s3.first with size := s3.first.filesize}}
      if s'.bufferState = ATRAC_STATUS_HALFWAY_BUFFER then
        {s' with bufferState := ATRAC_STATUS_ALL_DATA_LOADED}
      else s'
    else s3
  let s5 := {s4 with first := {s4.first with offset := u32 (s4.first.offset + bytesToAdd)}}
  {s5 with bufferValidBytes := u32 (s5.bufferValidBytes + bytesToAdd)}

/-- The AtracLoopHack compatibility tail of Atrac::AddStreamData
(AtracCtx.cpp lines 724-727). -/
def addStreamDataLoopHack (hack : Bool) (s6 : Atrac) : Atrac :=
  if hack ∧ s6.bufferState = ATRAC_STATUS_STREAMED_LOOP_FROM_END ∧
      remainingFrames s6 > 2 then
    seekToSample {s6 with loopNum := s6.loopNum + 1}
      (s6.loopStartSample - (firstOffsetExtra s6 : Int) - s6.firstSampleOffset)
  else s6

/-- Atrac::AddStreamData (AtracCtx.cpp lines 699-730). hack stands for the
AtracLoopHack compatibility flag read from the core parameters. Returns
the result code and the state. -/
def addStreamData (hack : Bool) (s : Atrac) (bytesToAdd : Nat) : Nat × Atrac :=
  let s1 := (calculateStreamInfo s).1
  let readOffset := (calculateStreamInfo s).2
  if bytesToAdd > s1.first.writableBytes then (ATRAC_ERROR_ADD_DATA_IS_TOO_BIG, s1)
  else
    (0, addStreamDataLoopHack hack (addStreamDataCommit s1 readOffset bytesToAdd))

/-- Atrac::AddStreamDataSas (AtracCtx.cpp lines 732-745). The guest-memory
copy acts outside this state. Always returns 0. -/
def addStreamDataSas (s : Atrac) (_bufPtr bytesToAdd : Nat) : Nat × Atrac :=
  let addbytes := min bytesToAdd
    (u32sub (u32sub s.first.filesize s.first.fileoffset) (firstOffsetExtra s))
  let s1 := {s with first := {s.first with size := u32 (s.first.size + bytesToAdd)}}
  let s2 : Atrac := if s1.first.size ≥ s1.first.filesize then
      let s' := {s1 with first := {s1.first with size := s1.first.filesize}}
      if s'.bufferState = ATRAC_STATUS_HALFWAY_BUFFER then
        {s' with bufferState := ATRAC_STATUS_ALL_DATA_LOADED}
      else s'
    else s1
  let s3 := {s2 with first := {s2.first with fileoffset := u32 (s2.first.fileoffset + addbytes)}}
  (0, s3)

/-- Atrac::GetNextSamples (AtracCtx.cpp lines 747-766): the sample budget
of the next decode call, together with the state after the call (the
streamed-loop-from-end branch mutates the buffer state). -/
def getNextSamples (s : Atrac) : Nat × Atrac :=
  let spf := samplesPerFrame s
  let skipSamples := u32i (s.firstSampleOffset + (firstOffsetExtra s : Int))
  let firstSamples := u32sub spf skipSamples % spf
  let numSamplesA := u32i (s.endSample + 1 - s.currentSample)
  let numSamplesB := if s.currentSample = 0 ∧ firstSamples ≠ 0 then firstSamples
    else numSamplesA
  let unalignedSamples := u32 (skipSamples + u32i s.currentSample) % spf
  let numSamplesC := if unalignedSamples ≠ 0 then spf - unalignedSamples else numSamplesB
  let numSamples := if numSamplesC > spf then spf else numSamplesC
  let s' := if s.bufferState = ATRAC_STATUS_STREAMED_LOOP_FROM_END ∧
      (numSamples : Int) + s.currentSample > s.endSample then
      {s with bufferState := ATRAC_STATUS_ALL_DATA_LOADED}
    else s
  (numSamples, s')

/-- The outputs of one Atrac::DecodeData call (AtracCtx.cpp lines 857-985):
return code, resulting state, the SamplesNum output, the finish flag, the
remains output (none when that out-parameter is left unwritten), and how
many times WriteContextToPSPMem ran before returning. -/
structure DecodeOut where
  ret : Nat
  s : Atrac
  samplesNum : Nat
  finish : Nat
  remains : Option Int
  ctxWrites : Nat
deriving Repr, DecidableEq

/-- The tail of Atrac::DecodeData after the decode attempt (AtracCtx.cpp
lines 946-984): advance the position, consume a frame, handle loop
wraparound or end of track, fill the outputs and refresh the guest
context. loopNum is the local shadowing copy from line 858. -/
def decodeTail (s : Atrac) (numSamples : Nat) (loopNum : Int) : DecodeOut :=
  let s := {s with currentSample := s.currentSample + numSamples}
  let s := {s with decodePos := decodePosBySample s s.currentSample}
  let s := consumeFrame s
  let hitEnd : Prop := s.currentSample ≥ s.endSample ∨
    (numSamples = 0 ∧ s.first.size ≥ s.first.filesize)
  let loopEndAdjusted := s.loopEndSample - (firstOffsetExtra s : Int) - s.firstSampleOffset
  if (hitEnd ∨ s.currentSample > loopEndAdjusted) ∧ loopNum ≠ 0 then
    let s := seekToSample s
      (s.loopStartSample - (firstOffsetExtra s : Int) - s.firstSampleOffset)
    let s : Atrac := if s.bufferState ≠ ATRAC_STATUS_FOR_SCESAS ∧ s.loopNum > 0 then
        {s with loopNum := s.loopNum - 1}
      else s
    let s : Atrac := if streamedMaskN s.bufferState then
        let loopOffset := fileOffsetBySample s (s.loopStartSample
          - (firstOffsetExtra s : Int) - s.firstSampleOffset - (samplesPerFrame s : Int) * 2)
        if loopOffset > s.first.fileoffset ∨
            u32 (loopOffset + s.bufferValidBytes) < s.first.fileoffset then
          {s with first := {s.first with fileoffset := loopOffset}}
        else s
      else s
    ⟨0, s, numSamples, 0, some (remainingFrames s), 1⟩
  else if hitEnd then
    let s := {s with currentSample := s.currentSample + ((samplesPerFrame s : Int) - numSamples)}
    ⟨0, s, numSamples, 1, some (remainingFrames s), 1⟩
  else
    ⟨0, s, numSamples, 0, some (remainingFrames s), 1⟩

/-- The decode attempt of Atrac::DecodeData (AtracCtx.cpp lines 903-930)
once a source frame is available: a decoder failure returns immediately
(no context refresh on that path); success clips the produced samples by
the alignment skip and the remaining budget and falls through to the
common tail. -/
def decodeFrameResult (dec : Nat → Option Nat) (s : Atrac)
    (off skipSamples maxSamples : Nat) (loopNum : Int) : DecodeOut :=
  match dec off with
  | none => ⟨ATRAC_ERROR_ALL_DATA_DECODED, s, 0, 1, none, 0⟩
  | some outBytes =>
    let numSamplesA := outBytes / 4
    let skipped := min skipSamples numSamplesA
    let numSamplesB := numSamplesA - skipped
    let numSamples := min maxSamples numSamplesB
    decodeTail s numSamples loopNum

/-- Atrac::DecodeData (AtracCtx.cpp lines 857-985). The external decoder
capability is the parameter dec: the PCM byte count it produces for a
frame read at a given source offset, or none when Decode fails. PCM
output itself goes to memory outside this state. -/
def decodeData (dec : Nat → Option Nat) (s : Atrac) : DecodeOut :=
  let loopNum : Int := if s.bufferState = ATRAC_STATUS_FOR_SCESAS then 0 else s.loopNum
  if s.currentSample ≥ s.endSample ∧ loopNum = 0 then
    ⟨ATRAC_ERROR_ALL_DATA_DECODED, s, 0, 1, none, 1⟩
  else
    let offsetSamples : Int := s.firstSampleOffset + (firstOffsetExtra s : Int)
    let maxSamplesA := u32i (s.endSample + 1 - s.currentSample)
    let unalignedSamples := u32 (u32i (offsetSamples + s.currentSample)) % samplesPerFrame s
    let maxSamples := if unalignedSamples ≠ 0 then samplesPerFrame s - unalignedSamples
      else maxSamplesA
    let skipSamples := if unalignedSamples ≠ 0 then unalignedSamples else 0
    let s : Atrac := if skipSamples ≠ 0 ∧ s.bufferHeaderSize = 0 then consumeFrame s else s
    if s.codecType = PSP_MODE_AT_3 ∨ s.codecType = PSP_MODE_AT_3_PLUS then
      let s := seekToSample s s.currentSample
      let off := fileOffsetBySample s (s.currentSample - skipSamples)
      if off < s.first.size then
        decodeFrameResult dec s off skipSamples maxSamples loopNum
      else
        let numSamples := if s.currentSample < s.endSample ∧
            fileOffsetBySample s s.currentSample < s.first.filesize then
            min maxSamples (samplesPerFrame s)
          else 0
        decodeTail s numSamples loopNum
    else
      decodeTail s 0 loopNum

/-- One half of the AtracResetBufferInfo record filled by
Atrac::GetResetBufferInfo (AtracCtx.cpp lines 568-621). -/
structure AtracSingleResetBufferInfo where
  writePosPtr : Nat
  writableBytes : Nat
  minWriteBytes : Nat
  filePos : Nat
deriving Repr, DecidableEq

/-- The full reset buffer info record. -/
structure AtracResetBufferInfo where
  first : AtracSingleResetBufferInfo
  second : AtracSingleResetBufferInfo
deriving Repr, DecidableEq

/-- Atrac::GetResetBufferInfo (AtracCtx.cpp lines 568-621). -/
def getResetBufferInfo (s : Atrac) (sample : Int) : AtracResetBufferInfo :=
  let firstInfo : AtracSingleResetBufferInfo :=
    if s.bufferState = ATRAC_STATUS_ALL_DATA_LOADED then
      ⟨s.first.addr, 0, 0, 0⟩
    else if s.bufferState = ATRAC_STATUS_HALFWAY_BUFFER then
      let minW : Int := toInt32 (u32sub (fileOffsetBySample s sample) s.first.size)
      ⟨u32 (s.first.addr + s.first.size), u32sub s.first.filesize s.first.size,
        if minW > 0 then u32i minW else 0, s.first.size⟩
    else
      let sfo : Int := toInt32 (fileOffsetBySample s
        (sample - s.firstSampleOffset - (samplesPerFrame s : Int)))
      let bufSizeAligned := s.bufferMaxSize / s.bytesPerFrame * s.bytesPerFrame
      let needsMoreFrames := firstOffsetExtra s
      let writable := min (u32sub s.first.filesize (u32i sfo)) bufSizeAligned
      let minW := if Int.tmod (sample + s.firstSampleOffset) (samplesPerFrame s : Int) ≥
          (samplesPerFrame s : Int) - (needsMoreFrames : Int) then
          s.bytesPerFrame * 3
        else s.bytesPerFrame * 2
      let sfoAdj : Int := if u32i sample < u32i s.firstSampleOffset ∧ sfo ≠ (s.dataOff : Int) then
          sfo - s.bytesPerFrame
        else sfo
      ⟨s.first.addr, writable, minW, u32i sfoAdj⟩
  ⟨firstInfo, ⟨s.first.addr, 0, 0, 0⟩⟩

/-- The halfway-buffer branch of Atrac::ResetPlayPosition (AtracCtx.cpp
lines 1012-1027): append the written bytes, promoting to all-loaded when
the file fills up. -/
def resetHalfwayBody (s : Atrac) (b1 : Nat) : Atrac :=
  let s1 : Atrac := if b1 ≠ 0 then
      {s with first := {s.first with
                        fileoffset := u32 (s.first.fileoffset + b1),
                        size := u32 (s.first.size + b1),
                        offset := u32 (s.first.offset + b1)}}
    else s
  if s1.first.size ≥ s1.first.filesize then
    {s1 with first := {s1.first with size := s1.first.filesize},
             bufferState := ATRAC_STATUS_ALL_DATA_LOADED}
  else s1

/-- The streamed branch of Atrac::ResetPlayPosition (AtracCtx.cpp lines
1033-1047): move the file cursor to the computed position and restart the
ring with the written bytes. -/
def resetStreamedBody (s : Atrac) (filePos b1 : Nat) : Atrac :=
  let s1 := {s with first := {s.first with fileoffset := filePos}}
  let s2 : Atrac := if b1 ≠ 0 then
      {s1 with first := {s1.first with fileoffset := u32 (s1.first.fileoffset + b1)}}
    else s1
  let s3 := {s2 with first := {s2.first with size := s2.first.fileoffset, offset := b1}}
  {s3 with bufferHeaderSize := 0, bufferPos := s3.bytesPerFrame,
           bufferValidBytes := u32sub b1 s3.bytesPerFrame}

/-- The common tail of Atrac::ResetPlayPosition (AtracCtx.cpp lines
1050-1055): reposition the decoder when a codec is active, refresh the
guest context. -/
def finishReset (s : Atrac) (sample : Int) : Atrac :=
  if s.codecType = PSP_MODE_AT_3 ∨ s.codecType = PSP_MODE_AT_3_PLUS then
    seekToSample s sample
  else s

/-- Atrac::ResetPlayPosition (AtracCtx.cpp lines 998-1056). The byte-count
arguments are C++ ints compared after conversion to u32, as in the source. -/
def resetPlayPosition (s : Atrac) (sample bytesWrittenFirstBuf bytesWrittenSecondBuf : Int) :
    Nat × Atrac :=
  let info := getResetBufferInfo s sample
  let b1 := u32i bytesWrittenFirstBuf
  let b2 := u32i bytesWrittenSecondBuf
  if b1 < info.first.minWriteBytes ∨ b1 > info.first.writableBytes then
    (ATRAC_ERROR_BAD_FIRST_RESET_SIZE, s)
  else if b2 < info.second.minWriteBytes ∨ b2 > info.second.writableBytes then
    (ATRAC_ERROR_BAD_SECOND_RESET_SIZE, s)
  else if s.bufferState = ATRAC_STATUS_ALL_DATA_LOADED then
    (0, finishReset s sample)
  else if s.bufferState = ATRAC_STATUS_HALFWAY_BUFFER then
    (0, finishReset (resetHalfwayBody s b1) sample)
  else
    if info.first.filePos > s.first.filesize then (ATRAC_ERROR_API_FAIL, s)
    else
      (0, finishReset (resetStreamedBody s info.first.filePos b1) sample)

/-- The raw field values held in a serialized record, as consumed by
Atrac::DoState in read mode (AtracCtx.cpp lines 40-145). Fields a given
schema version does not contain are simply not consulted by the read. -/
structure SavedAtrac where
  channels : Nat
  outputChannels : Nat
  jointStereo : Nat
  atracID : Nat
  first : AtracBuf
  bufferMaxSize : Nat
  codecType : Nat
  currentSample : Int
  endSample : Int
  firstSampleOffset : Int
  dataOff : Nat
  hasDataBuf : Bool
  second : AtracBuf
  decodePos : Nat
  bufferPos : Nat
  bitrate : Nat
  bytesPerFrame : Nat
  loopinfo : List AtracLoopInfo
  loopStartSample : Int
  loopEndSample : Int
  loopNum : Int
  contextValid : Bool
  bufferState : Nat
  ignoreDataBuf : Bool
  bufferValidBytes : Nat
  bufferHeaderSize : Nat
deriving Repr, DecidableEq

/-- Atrac::DoState in read mode (AtracCtx.cpp lines 40-145): the version
ladder that rebuilds the context from a record written under schema
version ver (1 to 9). Store reallocation and decoder recreation act
outside this state (CreateDecoder is only reached for non-NoData states
and does not change the fields below except decodePos, reset on line
565 of the embedding source as part of CreateDecoder). -/
def doStateReadScalars (ver : Nat) (v : SavedAtrac) (s0 : Atrac) : Atrac :=
  let s := {s0 with channels := v.channels, outputChannels := v.outputChannels}
  let s : Atrac := if ver ≥ 5 then {s with jointStereo := v.jointStereo} else s
  let s := {s with
            atracID := v.atracID, first := v.first, bufferMaxSize := v.bufferMaxSize,
            codecType := v.codecType, currentSample := v.currentSample,
            endSample := v.endSample, firstSampleOffset := v.firstSampleOffset}
  let s : Atrac := if ver ≥ 3 then {s with dataOff := v.dataOff}
    else {s with dataOff := u32i s.firstSampleOffset}
  let s := {s with hasDataBuf := v.hasDataBuf, second := v.second, decodePos := v.decodePos}
  let s : Atrac := if ver ≥ 4 then {s with bufferPos := v.bufferPos}
    else {s with bufferPos := s.decodePos}
  {s with
   bitrate := v.bitrate, bytesPerFrame := v.bytesPerFrame,
   loopinfo := v.loopinfo, loopStartSample := v.loopStartSample,
   loopEndSample := v.loopEndSample, loopNum := v.loopNum,
   contextValid := v.contextValid}

/-- The buffer-state step of the DoState read ladder (AtracCtx.cpp lines
103-111): explicit from v6, else NoData without a store, else inferred. -/
def doStateInferState (ver : Nat) (v : SavedAtrac) (s : Atrac) : Atrac :=
  if ver ≥ 6 then {s with bufferState := v.bufferState}
  else if ¬ s.hasDataBuf then {s with bufferState := ATRAC_STATUS_NO_DATA}
  else updateBufferState s

/-- The ignore-owned-store step (AtracCtx.cpp lines 113-117). -/
def doStateIgnoreFlag (ver : Nat) (v : SavedAtrac) (s : Atrac) : Atrac :=
  if ver ≥ 7 then {s with ignoreDataBuf := v.ignoreDataBuf}
  else {s with ignoreDataBuf := false}

/-- The ring-cursor step (AtracCtx.cpp lines 119-128): explicit valid
bytes and header size from v9; before v9 they are rederived and, in a
streamed state, the read cursor is reset to the data offset. -/
def doStateRing (ver : Nat) (v : SavedAtrac) (s : Atrac) : Atrac :=
  if ver ≥ 9 then
    {s with bufferValidBytes := v.bufferValidBytes, bufferHeaderSize := v.bufferHeaderSize}
  else
    let s1 := {s with bufferHeaderSize := s.dataOff}
    let s2 := {s1 with bufferValidBytes :=
                        min (u32sub s1.first.size s1.dataOff) (u32sub (streamBufferEnd s1) s1.dataOff)}
    if streamedMaskN s2.bufferState then {s2 with bufferPos := s2.dataOff} else s2

/-- The pre-v8 trailer-state remap (AtracCtx.cpp lines 130-134). -/
def doStateTrailerRemap (ver : Nat) (s : Atrac) : Atrac :=
  if ver < 8 ∧ s.bufferState = ATRAC_STATUS_STREAMED_LOOP_WITH_TRAILER then
    {s with bufferState := ATRAC_STATUS_STREAMED_LOOP_FROM_END}
  else s

/-- The state-dependent tail of the DoState read ladder (AtracCtx.cpp
lines 103-134): buffer-state inference before v6, the ignore flag, the
pre-v9 ring-cursor compatibility step, and the pre-v8 trailer remap. -/
def doStateReadDerived (ver : Nat) (v : SavedAtrac) (s1 : Atrac) : Atrac :=
  doStateTrailerRemap ver (doStateRing ver v (doStateIgnoreFlag ver v (doStateInferState ver v s1)))

/-- Atrac::DoState read mode, complete: the scalar reads followed by the
derived-state steps. -/
def doStateRead (ver : Nat) (v : SavedAtrac) (s0 : Atrac) : Atrac :=
  doStateReadDerived ver v (doStateReadScalars ver v s0)

/-! Concrete inputs used by the claim witnesses and counterexamples. -/

/-- A 160-byte RIFF/WAVE image: fmt chunk (ATRAC3, stereo, 44100 Hz,
block align 384), then an smpl chunk of declared size 60 whose loop count
says 25 entries — only the first 24-byte record fits inside the chunk and
it is well formed (start 0 < end 100); the bytes right after the chunk,
where record index 1 is read from, hold start 1 ≥ end 0 — then the data
chunk. -/
def mExBytes : List Nat :=
  [82, 73, 70, 70, 152, 0, 0, 0, 87, 65, 86, 69, 102, 109, 116, 32,
   32, 0, 0, 0, 112, 2, 2, 0, 68, 172, 0, 0, 0, 64, 0, 0,
   128, 1, 0, 0, 0, 0, 0, 0, 0, 0, 0, 0, 0, 0, 0, 0,
   0, 0, 0, 0, 115, 109, 112, 108, 60, 0, 0, 0, 0, 0, 0, 0,
   0, 0, 0, 0, 0, 0, 0, 0, 0, 0, 0, 0, 0, 0, 0, 0,
   0, 0, 0, 0, 0, 0, 0, 0, 25, 0, 0, 0, 0, 0, 0, 0,
   0, 0, 0, 0, 0, 0, 0, 0, 0, 0, 0, 0, 100, 0, 0, 0,
   0, 0, 0, 0, 0, 0, 0, 0, 100, 97, 116, 97, 20, 0, 0, 0,
   1, 0, 0, 0, 0, 0, 0, 0, 0, 0, 0, 0, 0, 0, 0, 0,
   0, 0, 0, 0, 0, 0, 0, 0, 0, 0, 0, 0, 0, 0, 0, 0]

/-- The memory function holding mExBytes at address 0. -/
def mEx : Mem := fun a => mExBytes.getD a 0

/-- An AA3 image whose id3 tag-size bytes are 0, 0, 0, 0xF0: the source
decode (no 7-bit masking) yields 240, the spec-worded 7-bit decode yields
112. A valid EA3 header sits at 10 + 240 for the full-byte decode. -/
def m7 : Mem := fun a =>
  if a = 0 then 101 else if a = 1 then 97 else if a = 2 then 51
  else if a = 9 then 240 else if a = 250 then 69 else if a = 251 then 65
  else if a = 252 then 51 else if a = 285 then 1 else 0

/-- A streamed-without-loop context with a large remaining trailer, used
to call SetSecondBuffer with size 0 in the wrong state. -/
def sC1 : Atrac := {atracInit with
  codecType := PSP_MODE_AT_3, bufferState := ATRAC_STATUS_STREAMED_WITHOUT_LOOP,
  loopEndSample := -1, firstSampleOffset := 0, dataOff := 96, bytesPerFrame := 128,
  first := {atracInit.first with filesize := 1000000}}

/-- An all-data-loaded context (not the trailer state), for the witness
call of SetSecondBuffer with a size that is not too small. -/
def sC1w : Atrac := {atracInit with
  codecType := PSP_MODE_AT_3, bufferState := ATRAC_STATUS_ALL_DATA_LOADED,
  bytesPerFrame := 1, loopEndSample := 0}

/-- A mid-playback context whose current sample is before the end sample,
so DecodeData reaches the decoder call. -/
def sC2 : Atrac := {atracInit with
  codecType := PSP_MODE_AT_3, currentSample := 0, endSample := 100, loopNum := 0,
  firstSampleOffset := 0, bufferHeaderSize := 96, dataOff := 96, bytesPerFrame := 128,
  bufferState := ATRAC_STATUS_ALL_DATA_LOADED,
  first := {atracInit.first with size := 1000, filesize := 1000}}

/-- A context whose file offset already equals the file size: the
AddStreamDataSas capacity subtraction underflows in 32 bits. -/
def sSas : Atrac := {atracInit with
  codecType := PSP_MODE_AT_3_PLUS,
  first := {atracInit.first with filesize := 100, fileoffset := 100, size := 0}}

/-- A halfway-buffer context with file offset at the file size but zero
resident bytes: the buffer-descriptor invariant holds but the halfway
branch of ResetPlayPosition adds the written bytes to the file offset
without a clamp. -/
def sRH : Atrac := {atracInit with
  codecType := PSP_MODE_AT_3, bufferState := ATRAC_STATUS_HALFWAY_BUFFER,
  bytesPerFrame := 128, firstSampleOffset := 0, dataOff := 0,
  first := {atracInit.first with filesize := 100, fileoffset := 100, size := 0}}

/-- A finished ATRAC3+ context: first-sample offset 1680 makes the
alignment remainder zero at current sample 2048 = end sample + 1, where
the next-samples query returns 0. Reachable by decoding a track with fact
end-sample 2048 to completion. -/
def sC5 : Atrac := {atracInit with
  codecType := PSP_MODE_AT_3_PLUS, firstSampleOffset := 1680, endSample := 2047,
  currentSample := 2048, bufferState := ATRAC_STATUS_STREAMED_WITHOUT_LOOP}

/-- An in-playback ATRAC3 context for the next-samples witness. -/
def c5w : Atrac := {atracInit with codecType := PSP_MODE_AT_3, endSample := 100}

/-- A saved record whose declared capacity (100) is below the file size
(1000) with no loop: the read infers a streamed state. Its decode
position is 500 while its data offset is 96. -/
def v8 : SavedAtrac where
  channels := 2
  outputChannels := 2
  jointStereo := 0
  atracID := 0
  first := ⟨0, 50, 0, 0, 0, 1000⟩
  bufferMaxSize := 100
  codecType := PSP_MODE_AT_3
  currentSample := 0
  endSample := 1000
  firstSampleOffset := 0
  dataOff := 96
  hasDataBuf := true
  second := ⟨0, 0, 0, 0, 0, 0⟩
  decodePos := 500
  bufferPos := 7
  bitrate := 0
  bytesPerFrame := 128
  loopinfo := []
  loopStartSample := -1
  loopEndSample := -1
  loopNum := 0
  contextValid := false
  bufferState := 0
  ignoreDataBuf := false
  bufferValidBytes := 0
  bufferHeaderSize := 0

/-- The same record with capacity covering the file: the read infers the
all-data-loaded state, which is not streamed. -/
def v8w : SavedAtrac := {v8 with bufferMaxSize := 1000, first := ⟨0, 1000, 0, 0, 0, 1000⟩}

/-- A context with a live guest record and the no-loop sentinels. -/
def s10 : Atrac := {atracInit with contextValid := true}

/-- The two buffer-descriptor inequalities of the spec (section 3):
resident region within the logical size, consumed offset within the
logical size. -/
def invFirst (b : AtracBuf) : Prop := b.size ≤ b.filesize ∧ b.fileoffset ≤ b.filesize

/-- What actually survives of the claimed invariant preservation:
SetData establishes the invariant outright; AddStreamData and
AddStreamDataSas keep the resident size within the file size, and
AddStreamData keeps the file offset within the file size whenever the
read offset CalculateStreamInfo computed does not exceed it;
ResetPlayPosition preserves the invariant in the all-data-loaded state,
in the halfway state when the file offset also lay within the resident
size, and in the remaining states when the byte offset computed for the
target sample lies within the file size. -/
def bufferInvariantPreserved (s : Atrac) : Prop :=
  (∀ buffer readSize bufferSize c, invFirst ((setData s buffer readSize bufferSize c).2).first) ∧
  (∀ (hack : Bool) (n : Nat), (addStreamData hack s n).1 = 0 →
    (addStreamData hack s n).2.first.size ≤ (addStreamData hack s n).2.first.filesize ∧
    ((calculateStreamInfo s).2 ≤ s.first.filesize →
      (addStreamData hack s n).2.first.fileoffset ≤ (addStreamData hack s n).2.first.filesize)) ∧
  (∀ p n, (addStreamDataSas s p n).2.first.size ≤ (addStreamDataSas s p n).2.first.filesize) ∧
  (∀ sample b1 b2, (resetPlayPosition s sample b1 b2).1 = 0 →
    (s.bufferState = ATRAC_STATUS_ALL_DATA_LOADED →
      invFirst (resetPlayPosition s sample b1 b2).2.first) ∧
    (s.bufferState = ATRAC_STATUS_HALFWAY_BUFFER → s.first.fileoffset ≤ s.first.size →
      invFirst (resetPlayPosition s sample b1 b2).2.first) ∧
    (s.bufferState ≠ ATRAC_STATUS_ALL_DATA_LOADED →
      s.bufferState ≠ ATRAC_STATUS_HALFWAY_BUFFER →
      fileOffsetBySample s (sample - s.firstSampleOffset - (samplesPerFrame s : Int)) ≤
        s.first.filesize →
      invFirst (resetPlayPosition s sample b1 b2).2.first))

/-! Claim theorems. -/

/-- C1 counterexample: calling SetSecondBuffer in the StreamedWithoutLoop
state with size 0 fails with size-too-small, not with the second-buffer
not-needed code the claim requires for every size. -/
theorem setSecondBuffer_c1_counterexample :
    sC1.bufferState ≠ ATRAC_STATUS_STREAMED_LOOP_WITH_TRAILER ∧
    (setSecondBuffer sC1 0 0).1 = ATRAC_ERROR_SIZE_TOO_SMALL ∧
    ATRAC_ERROR_SIZE_TOO_SMALL ≠ ATRAC_ERROR_SECOND_BUFFER_NOT_NEEDED := by
  refine ⟨by decide, by rfl, by decide⟩

/-- C1 amended: outside the trailer state every SetSecondBuffer call
fails and leaves the context unchanged, but the size check runs first:
the code is size-too-small when the size is below both the bytes
remaining from the loop-end file offset and three frames, and not-needed
otherwise. -/
theorem setSecondBuffer_wrong_state (s : Atrac) (a sz : Nat)
    (h : s.bufferState ≠ ATRAC_STATUS_STREAMED_LOOP_WITH_TRAILER) :
    ((setSecondBuffer s a sz).1 =
      if sz < u32sub s.first.filesize (fileOffsetBySample s (s.loopEndSample - s.firstSampleOffset)) ∧
          sz < s.bytesPerFrame * 3 then
        ATRAC_ERROR_SIZE_TOO_SMALL
      else ATRAC_ERROR_SECOND_BUFFER_NOT_NEEDED) ∧
    (setSecondBuffer s a sz).2 = s := by
  unfold setSecondBuffer
  by_cases hc : sz < u32sub s.first.filesize
      (fileOffsetBySample s (s.loopEndSample - s.firstSampleOffset)) ∧
      sz < s.bytesPerFrame * 3
  · simp [hc]
  · simp [hc, h]

/-- C1 witness: a concrete wrong-state call whose size is not too small
gets the not-needed code and leaves the context unchanged. -/
theorem setSecondBuffer_wrong_state_witness :
    (setSecondBuffer sC1w 5 999).1 = ATRAC_ERROR_SECOND_BUFFER_NOT_NEEDED ∧
    (setSecondBuffer sC1w 5 999).2 = sC1w := by
  have h := setSecondBuffer_wrong_state sC1w 5 999 (by decide)
  exact ⟨h.1.trans (by decide), h.2⟩

/-- C9: the next-samples query flips the buffer state to AllDataLoaded
exactly when called in the streamed-loop-from-end state with the budget
crossing the end sample, and returns the context untouched in every other
state and condition. -/
theorem getNextSamples_state_effect (s : Atrac) :
    (getNextSamples s).2 =
      if s.bufferState = ATRAC_STATUS_STREAMED_LOOP_FROM_END ∧
          ((getNextSamples s).1 : Int) + s.currentSample > s.endSample then
        {s with bufferState := ATRAC_STATUS_ALL_DATA_LOADED}
      else s := by
  rfl

/-- C10: whenever the internal loop start or loop end sample is
non-positive (including the -1 sentinel), the record written by the
context push holds 0 in the corresponding guest-visible field. -/
theorem writeContext_clamps_loop_fields (s : Atrac) (ctx : SceAtracContextInfo)
    (h : writeContextToPSPMem s = some ctx) :
    (s.loopStartSample ≤ 0 → ctx.loopStart = 0) ∧ (s.loopEndSample ≤ 0 → ctx.loopEnd = 0) := by
  unfold writeContextToPSPMem at h
  by_cases hc : ¬ s.contextValid = true
  · rw [if_pos hc] at h
    cases h
  · rw [if_neg hc] at h
    injection h with hctx
    subst hctx
    refine ⟨fun hle => ?_, fun hle => ?_⟩
    · show (if s.loopStartSample > 0 then u32i s.loopStartSample else 0) = 0
      rw [if_neg (by omega)]
    · show (if s.loopEndSample > 0 then u32i s.loopEndSample else 0) = 0
      rw [if_neg (by omega)]

/-- C10 witness: with both loop sentinels at -1 and a live guest record,
the pushed loop fields are 0. -/
theorem writeContext_clamps_loop_fields_witness :
    ((writeContextToPSPMem s10).getD sceAtracContextZero).loopStart = 0 ∧
    ((writeContextToPSPMem s10).getD sceAtracContextZero).loopEnd = 0 := by
  have h := writeContext_clamps_loop_fields s10
    ((writeContextToPSPMem s10).getD sceAtracContextZero) (by rfl)
  exact ⟨h.1 (by decide), h.2 (by decide)⟩

/-- CalculateStreamInfo writes only the write offset and writable byte
count; the file offset, resident size, file size and valid-byte count are
untouched. -/
theorem calculateStreamInfo_preserves (s : Atrac) :
    (calculateStreamInfo s).1.first.fileoffset = s.first.fileoffset ∧
    (calculateStreamInfo s).1.first.size = s.first.size ∧
    (calculateStreamInfo s).1.first.filesize = s.first.filesize ∧
    (calculateStreamInfo s).1.bufferValidBytes = s.bufferValidBytes := by
  unfold calculateStreamInfo
  split_ifs <;> simp

/-- C3: when the byte count exceeds the writable count just computed
(that is, the write offset already agrees with what CalculateStreamInfo
computes), AddStreamData fails with add-data-too-big and the file offset,
resident size, ring write offset and valid-byte count are all unchanged. -/
theorem addStreamData_too_big_unchanged (hack : Bool) (s : Atrac) (n : Nat)
    (hoff : s.first.offset = (calculateStreamInfo s).1.first.offset)
    (hbig : n > (calculateStreamInfo s).1.first.writableBytes) :
    (addStreamData hack s n).1 = ATRAC_ERROR_ADD_DATA_IS_TOO_BIG ∧
    (addStreamData hack s n).2.first.fileoffset = s.first.fileoffset ∧
    (addStreamData hack s n).2.first.size = s.first.size ∧
    (addStreamData hack s n).2.first.offset = s.first.offset ∧
    (addStreamData hack s n).2.bufferValidBytes = s.bufferValidBytes := by
  have hp := calculateStreamInfo_preserves s
  simp only [addStreamData]
  rw [if_pos hbig]
  exact ⟨rfl, hp.1, hp.2.1, hoff.symm, hp.2.2.2⟩

/-- C3 witness: one byte offered to a fresh context (writable count 0)
fails with add-data-too-big and moves none of the four cursors. -/
theorem addStreamData_too_big_witness :
    (addStreamData false atracInit 1).1 = ATRAC_ERROR_ADD_DATA_IS_TOO_BIG ∧
    (addStreamData false atracInit 1).2.first.fileoffset = atracInit.first.fileoffset ∧
    (addStreamData false atracInit 1).2.first.size = atracInit.first.size ∧
    (addStreamData false atracInit 1).2.first.offset = atracInit.first.offset ∧
    (addStreamData false atracInit 1).2.bufferValidBytes = atracInit.bufferValidBytes :=
  addStreamData_too_big_unchanged false atracInit 1 (by decide) (by decide)

/-- C5 counterexample: at the reachable finished position one frame past
a track whose alignment remainder is zero there, the next-samples query
returns 0, not a positive budget. -/
theorem getNextSamples_c5_counterexample :
    (getNextSamples sC5).1 = 0 ∧
    (sC5.firstSampleOffset + (firstOffsetExtra sC5 : Int) + sC5.currentSample) %
      (samplesPerFrame sC5 : Int) = 0 := by
  refine ⟨by rfl, by decide⟩

/-- C5 amended: for current samples between 0 and the end sample the
budget is positive, never exceeds the frame sample count, and equals the
frame count minus the alignment remainder whenever that remainder is
nonzero; past the end sample the query can return 0. -/
theorem getNextSamples_aligned_budget (s : Atrac)
    (h0 : 0 ≤ s.currentSample) (hend : s.currentSample ≤ s.endSample)
    (hfso : 0 ≤ s.firstSampleOffset) (hfsoB : s.firstSampleOffset < 2147483648)
    (hendB : s.endSample < 2147483648) :
    0 < (getNextSamples s).1 ∧ (getNextSamples s).1 ≤ samplesPerFrame s ∧
    ((s.firstSampleOffset + (firstOffsetExtra s : Int) + s.currentSample) %
        (samplesPerFrame s : Int) ≠ 0 →
      ((getNextSamples s).1 : Int) =
        (samplesPerFrame s : Int) -
          (s.firstSampleOffset + (firstOffsetExtra s : Int) + s.currentSample) %
            (samplesPerFrame s : Int)) := by
  by_cases hcodec : s.codecType = PSP_MODE_AT_3_PLUS
  · unfold getNextSamples samplesPerFrame firstOffsetExtra u32 u32i u32sub
    simp only [hcodec, if_pos, ite_true, if_true]
    split_ifs <;> refine ⟨by omega, by omega, fun hr => by omega⟩
  · unfold getNextSamples samplesPerFrame firstOffsetExtra u32 u32i u32sub
    simp only [if_neg hcodec]
    split_ifs <;> refine ⟨by omega, by omega, fun hr => by omega⟩

/-- C5 witness: a fresh ATRAC3 context at sample 0 with end sample 100
gets the 955-sample first budget, which matches the remainder formula. -/
theorem getNextSamples_aligned_budget_witness :
    0 < (getNextSamples c5w).1 ∧ (getNextSamples c5w).1 ≤ samplesPerFrame c5w ∧
    ((c5w.firstSampleOffset + (firstOffsetExtra c5w : Int) + c5w.currentSample) %
        (samplesPerFrame c5w : Int) ≠ 0 →
      ((getNextSamples c5w).1 : Int) =
        (samplesPerFrame c5w : Int) -
          (c5w.firstSampleOffset + (firstOffsetExtra c5w : Int) + c5w.currentSample) %
            (samplesPerFrame c5w : Int)) :=
  getNextSamples_aligned_budget c5w (by decide) (by decide) (by decide) (by decide) (by decide)

/-- C7 counterexample: with a tag-size byte of 0xF0 the source decodes
240 where the spec's 7-bit decode gives 112; with region length 200 the
source fails with AA3 size-too-small although 200 reaches the spec-decoded
tag size plus 36, and the spec-worded variant takes a different path. -/
theorem analyzeAA3_tag_counterexample :
    tagSizeAA3 m7 0 = 240 ∧ tagSizeAA3SpecWords m7 0 = 112 ∧
    (analyzeAA3 m7 0 200 1000 atracInit).1 = ATRAC_ERROR_AA3_SIZE_TOO_SMALL ∧
    (analyzeAA3SpecWords m7 0 200 1000 atracInit).1 = ATRAC_ERROR_AA3_INVALID_DATA ∧
    ATRAC_ERROR_AA3_SIZE_TOO_SMALL ≠ ATRAC_ERROR_AA3_INVALID_DATA ∧
    ¬ (200 < tagSizeAA3SpecWords m7 0 + 36) := by
  refine ⟨by rfl, by rfl, by rfl, by rfl, by decide, by decide⟩

/-- C7 amended: the tag size is the bitwise OR of the four full bytes at
offsets 9, 8, 7 and 6, shifted 7 bits apart (no 7-bit masking), and
whenever the region length is below that tag size plus 36 the call fails
with the AA3 size-too-small code. -/
theorem analyzeAA3_size_check (m : Mem) (addr size filesize : Nat) (s : Atrac)
    (h10 : ¬ size < 10)
    (hm1 : read8 m addr = 101) (hm2 : read8 m (addr + 1) = 97) (hm3 : read8 m (addr + 2) = 51)
    (hsz : size < tagSizeAA3 m addr + 36) :
    (analyzeAA3 m addr size filesize s).1 = ATRAC_ERROR_AA3_SIZE_TOO_SMALL := by
  simp only [analyzeAA3, analyzeAA3With]
  rw [if_neg h10, if_neg (by simp [hm1, hm2, hm3]), if_pos hsz]

/-- C7 witness: the concrete AA3 image with the unmasked tag size 240 and
region length 200 fails with AA3 size-too-small through the theorem. -/
theorem analyzeAA3_size_check_witness :
    (analyzeAA3 m7 0 200 1000 atracInit).1 = ATRAC_ERROR_AA3_SIZE_TOO_SMALL :=
  analyzeAA3_size_check m7 0 200 1000 atracInit (by decide) (by decide) (by decide) (by decide)
    (by decide)

/-- C8 counterexample: reading a version-3 record that infers a streamed
state leaves the ring read cursor at the data offset (96), not at the
restored decode position (500). -/
theorem doStateRead_c8_counterexample :
    (doStateRead 3 v8 atracInit).bufferPos = 96 ∧ v8.decodePos = 500 ∧
    (doStateRead 3 v8 atracInit).bufferPos ≠ v8.decodePos := by
  refine ⟨by rfl, by rfl, by decide⟩

/-- C2 counterexample: a mid-playback call whose decoder fails returns
the all-data-decoded code without refreshing the guest context record
(zero context writes), on a path that is not the already-past-end exit. -/
theorem decodeData_c2_counterexample :
    (decodeData (fun _ => none) sC2).ret = ATRAC_ERROR_ALL_DATA_DECODED ∧
    (decodeData (fun _ => none) sC2).ctxWrites = 0 ∧
    ¬ (sC2.currentSample ≥ sC2.endSample) := by
  refine ⟨by rfl, by rfl, by decide⟩

/-- The common tail of DecodeData always refreshes the guest context once
before returning. -/
theorem decodeTail_ctxWrites (s : Atrac) (n : Nat) (l : Int) :
    (decodeTail s n l).ctxWrites = 1 := by
  simp only [decodeTail]
  split_ifs <;> simp

/-- The common tail of DecodeData always returns 0. -/
theorem decodeTail_ret (s : Atrac) (n : Nat) (l : Int) :
    (decodeTail s n l).ret = 0 := by
  simp only [decodeTail]
  split_ifs <;> simp

/-- The decode attempt refreshes the guest context unless the decoder
fails at the source offset. -/
theorem decodeFrameResult_ctxWrites (dec : Nat → Option Nat) (s : Atrac)
    (off skip maxS : Nat) (l : Int) :
    (decodeFrameResult dec s off skip maxS l).ctxWrites = if dec off = none then 0 else 1 := by
  cases h : dec off <;> simp [decodeFrameResult, h, decodeTail_ctxWrites]

/-- The decode attempt returns the all-data-decoded code exactly on
decoder failure, 0 otherwise. -/
theorem decodeFrameResult_ret (dec : Nat → Option Nat) (s : Atrac)
    (off skip maxS : Nat) (l : Int) :
    (decodeFrameResult dec s off skip maxS l).ret =
      if dec off = none then ATRAC_ERROR_ALL_DATA_DECODED else 0 := by
  cases h : dec off <;> simp [decodeFrameResult, h, decodeTail_ret]

/-- C2 amended: DecodeData refreshes the guest context record before
every return except on the decoder-failure path; the refresh count is
zero exactly when the call returned all-data-decoded without having taken
the already-past-end early exit — that is, exactly on decoder failure. -/
theorem decodeData_context_write (dec : Nat → Option Nat) (s : Atrac) :
    (decodeData dec s).ctxWrites = 0 ↔
      ((decodeData dec s).ret = ATRAC_ERROR_ALL_DATA_DECODED ∧
        ¬ (s.currentSample ≥ s.endSample ∧
            (if s.bufferState = ATRAC_STATUS_FOR_SCESAS then (0 : Int) else s.loopNum) = 0)) := by
  by_cases h1 : s.currentSample ≥ s.endSample ∧
      (if s.bufferState = ATRAC_STATUS_FOR_SCESAS then (0 : Int) else s.loopNum) = 0
  · simp [decodeData, if_pos h1, h1]
  · simp only [decodeData, if_neg h1]
    simp only [h1, not_false_eq_true, and_true]
    split_ifs <;>
      simp [decodeFrameResult_ctxWrites, decodeFrameResult_ret,
        decodeTail_ctxWrites, decodeTail_ret, ATRAC_ERROR_ALL_DATA_DECODED]

/-- The loop-record read fails only with the bad-codec-params code. -/
theorem buildLoopsFrom_error_code (m : Mem) (b c : Nat) :
    ∀ rem i e, buildLoopsFrom m b c rem i = Except.error e →
      e = ATRAC_ERROR_BAD_CODEC_PARAMS := by
  intro rem
  induction rem with
  | zero =>
    intro i e h
    cases h
  | succ k ih =>
    intro i e h
    rw [buildLoopsFrom] at h
    by_cases hg : 36 + i < c
    · rw [if_pos hg] at h
      by_cases hbad : (smplLoopRecord m (b + 24 * i)).startSample ≥
          (smplLoopRecord m (b + 24 * i)).endSample
      · rw [if_pos hbad] at h
        injection h with he
        exact he.symm
      · rw [if_neg hbad] at h
        cases hrec : buildLoopsFrom m b c k (i + 1) with
        | error e' =>
          rw [hrec] at h
          injection h with he
          exact he ▸ ih (i + 1) e' hrec
        | ok l =>
          rw [hrec] at h
          cases h
    · rw [if_neg hg] at h
      cases h

/-- The loop-record read from index i with a given remaining count fails
exactly when some record whose index passes the 36 + index < chunkSize
guard has start at or past end. -/
theorem buildLoopsFrom_error_iff (m : Mem) (b c : Nat) :
    ∀ rem i, (buildLoopsFrom m b c rem i = Except.error ATRAC_ERROR_BAD_CODEC_PARAMS ↔
      ∃ j, i ≤ j ∧ j < i + rem ∧ 36 + j < c ∧
        (smplLoopRecord m (b + 24 * j)).startSample ≥
          (smplLoopRecord m (b + 24 * j)).endSample) := by
  intro rem
  induction rem with
  | zero =>
    intro i
    constructor
    · intro h
      cases h
    · rintro ⟨j, h1, h2, -, -⟩
      omega
  | succ k ih =>
    intro i
    rw [buildLoopsFrom]
    by_cases hg : 36 + i < c
    · rw [if_pos hg]
      by_cases hbad : (smplLoopRecord m (b + 24 * i)).startSample ≥
          (smplLoopRecord m (b + 24 * i)).endSample
      · rw [if_pos hbad]
        exact ⟨fun _ => ⟨i, le_refl i, by omega, hg, hbad⟩, fun _ => rfl⟩
      · rw [if_neg hbad]
        have ihh := ih (i + 1)
        cases hrec : buildLoopsFrom m b c k (i + 1) with
        | error e' =>
          have he' := buildLoopsFrom_error_code m b c k (i + 1) e' hrec
          subst he'
          obtain ⟨j, hj1, hj2, hj3, hj4⟩ := ihh.mp hrec
          exact ⟨fun _ => ⟨j, by omega, by omega, hj3, hj4⟩, fun _ => rfl⟩
        | ok l =>
          constructor
          · intro h
            cases h
          · rintro ⟨j, hj1, hj2, hj3, hj4⟩
            rcases Nat.eq_or_lt_of_le hj1 with rfl | hlt
            · exact absurd hj4 hbad
            · have hx := ihh.mpr ⟨j, by omega, by omega, hj3, hj4⟩
              rw [hrec] at hx
              cases hx
    · rw [if_neg hg]
      constructor
      · intro h
        cases h
      · rintro ⟨j, hj1, hj2, hj3, -⟩
        omega

/-- C6 amended: smpl processing reads one 24-byte record per declared
entry while the record index keeps 36 + index < chunkSize (an index
guard, not a byte-range guard), and fails with bad-codec-params exactly
when one of those records has start at or past end — even when the
record's 24 bytes lie beyond the chunk. -/
theorem processSmpl_badloop_iff (m : Mem) (addr offset chunkSize : Nat) (s : Atrac) :
    processSmpl m addr offset chunkSize s = Except.error ATRAC_ERROR_BAD_CODEC_PARAMS ↔
      (¬ chunkSize < 32 ∧
        ¬ (toInt32 (read32 m (addr + offset + 28)) ≠ 0 ∧ chunkSize < 36 + 20) ∧
        ¬ toInt32 (read32 m (addr + offset + 28)) < 0 ∧
        ∃ j, j < (toInt32 (read32 m (addr + offset + 28))).toNat ∧ 36 + j < chunkSize ∧
          (smplLoopRecord m (addr + offset + 36 + 24 * j)).startSample ≥
            (smplLoopRecord m (addr + offset + 36 + 24 * j)).endSample) := by
  simp only [processSmpl, buildLoops]
  by_cases h1 : chunkSize < 32
  · rw [if_pos h1]
    constructor
    · intro h
      injection h with he
      exact absurd he (by decide)
    · rintro ⟨hna, -, -, -⟩
      exact absurd h1 hna
  · rw [if_neg h1]
    by_cases h2 : toInt32 (read32 m (addr + offset + 28)) ≠ 0 ∧ chunkSize < 36 + 20
    · rw [if_pos h2]
      constructor
      · intro h
        injection h with he
        exact absurd he (by decide)
      · rintro ⟨-, hna, -, -⟩
        exact absurd h2 hna
    · rw [if_neg h2]
      by_cases h3 : toInt32 (read32 m (addr + offset + 28)) < 0
      · rw [if_pos h3]
        constructor
        · intro h
          injection h with he
          exact absurd he (by decide)
        · rintro ⟨-, -, hna, -⟩
          exact absurd h3 hna
      · rw [if_neg h3]
        have hiff := buildLoopsFrom_error_iff m (addr + offset + 36) chunkSize
          (toInt32 (read32 m (addr + offset + 28))).toNat 0
        cases hrec : buildLoopsFrom m (addr + offset + 36) chunkSize
            (toInt32 (read32 m (addr + offset + 28))).toNat 0 with
        | error e' =>
          have he' := buildLoopsFrom_error_code m (addr + offset + 36) chunkSize
            (toInt32 (read32 m (addr + offset + 28))).toNat 0 e' hrec
          subst he'
          obtain ⟨j, -, hj2, hj3, hj4⟩ := hiff.mp hrec
          constructor
          · intro _
            exact ⟨h1, h2, h3, j, by omega, hj3, hj4⟩
          · intro _
            rfl
        | ok l =>
          constructor
          · intro h
            cases h
          · rintro ⟨-, -, -, j, hj2, hj3, hj4⟩
            have hx := hiff.mpr ⟨j, by omega, by omega, hj3, hj4⟩
            rw [hrec] at hx
            cases hx

/-- C6 counterexample: in mEx the only record whose bytes fit the
60-byte chunk is index 0 and it is well formed, while record index 1 —
whose 24 bytes lie wholly beyond the chunk — holds start 1 ≥ end 0; the
claim says that record is silently skipped, yet Analyze fails with
bad-codec-params. -/
theorem analyze_smpl_c6_counterexample :
    (analyze mEx 0 160 true atracInit).1 = ATRAC_ERROR_BAD_CODEC_PARAMS ∧
    processSmpl mEx 0 60 60 atracInit = Except.error ATRAC_ERROR_BAD_CODEC_PARAMS ∧
    (smplLoopRecord mEx 96).startSample < (smplLoopRecord mEx 96).endSample ∧
    36 + 24 * 1 ≤ 60 ∧
    36 + 24 * (1 + 1) > 60 ∧
    (smplLoopRecord mEx 120).startSample ≥ (smplLoopRecord mEx 120).endSample := by
  refine ⟨by rfl, by rfl, by decide, by decide, by decide, by decide⟩

/-- The buffer-state inference step touches neither the ring read cursor
nor the data offset. -/
theorem doStateInferState_cursors (ver : Nat) (v : SavedAtrac) (s : Atrac) :
    (doStateInferState ver v s).bufferPos = s.bufferPos ∧
    (doStateInferState ver v s).dataOff = s.dataOff := by
  unfold doStateInferState updateBufferState
  split_ifs <;> simp

/-- The ignore-flag step touches neither cursor nor the buffer state. -/
theorem doStateIgnoreFlag_cursors (ver : Nat) (v : SavedAtrac) (s : Atrac) :
    (doStateIgnoreFlag ver v s).bufferPos = s.bufferPos ∧
    (doStateIgnoreFlag ver v s).dataOff = s.dataOff ∧
    (doStateIgnoreFlag ver v s).bufferState = s.bufferState := by
  unfold doStateIgnoreFlag
  split_ifs <;> simp

/-- Before v9, the ring step rewrites the read cursor to the data offset
exactly in streamed states and keeps the data offset and state. -/
theorem doStateRing_cursors (ver : Nat) (v : SavedAtrac) (s : Atrac) (h9 : ver < 9) :
    (doStateRing ver v s).bufferPos =
      (if streamedMaskN s.bufferState then s.dataOff else s.bufferPos) ∧
    (doStateRing ver v s).dataOff = s.dataOff ∧
    (doStateRing ver v s).bufferState = s.bufferState := by
  unfold doStateRing
  rw [if_neg (by omega : ¬ ver ≥ 9)]
  split_ifs with h <;> simp_all

/-- The trailer remap keeps both cursors and preserves streamed-ness. -/
theorem doStateTrailerRemap_cursors (ver : Nat) (s : Atrac) :
    (doStateTrailerRemap ver s).bufferPos = s.bufferPos ∧
    (doStateTrailerRemap ver s).dataOff = s.dataOff ∧
    (streamedMaskN (doStateTrailerRemap ver s).bufferState ↔ streamedMaskN s.bufferState) := by
  unfold doStateTrailerRemap
  split_ifs with h
  · refine ⟨rfl, rfl, ?_⟩
    show streamedMaskN ATRAC_STATUS_STREAMED_LOOP_FROM_END ↔ streamedMaskN s.bufferState
    rw [h.2]
    decide
  · exact ⟨rfl, rfl, Iff.rfl⟩

/-- C8 amended: reading a record with schema version below 4 sets the
ring read cursor to the restored decode position, except that when the
inferred buffer state is a streamed variant the pre-v9 compatibility
step then overwrites it with the data offset. -/
theorem doStateRead_pre_v4_bufferPos (ver : Nat) (v : SavedAtrac) (s0 : Atrac)
    (hver : ver < 4) :
    (doStateRead ver v s0).bufferPos =
      if streamedMaskN (doStateRead ver v s0).bufferState
      then (doStateRead ver v s0).dataOff else v.decodePos := by
  have hb : (doStateReadScalars ver v s0).bufferPos = v.decodePos := by
    simp only [doStateReadScalars, if_neg (show ¬ ver ≥ 4 by omega)]
  have h1 := doStateInferState_cursors ver v (doStateReadScalars ver v s0)
  have h2 := doStateIgnoreFlag_cursors ver v (doStateInferState ver v (doStateReadScalars ver v s0))
  have h3 := doStateRing_cursors ver v
    (doStateIgnoreFlag ver v (doStateInferState ver v (doStateReadScalars ver v s0)))
    (by omega)
  have h4 := doStateTrailerRemap_cursors ver
    (doStateRing ver v (doStateIgnoreFlag ver v (doStateInferState ver v (doStateReadScalars ver v s0))))
  have e : doStateRead ver v s0 =
      doStateTrailerRemap ver (doStateRing ver v
        (doStateIgnoreFlag ver v (doStateInferState ver v (doStateReadScalars ver v s0)))) := rfl
  rw [e, h4.1, h3.1, h2.1, h1.1, hb, h4.2.1, h3.2.1, h2.2.1, h1.2]
  have hcond : streamedMaskN (doStateTrailerRemap ver (doStateRing ver v
        (doStateIgnoreFlag ver v (doStateInferState ver v (doStateReadScalars ver v s0))))).bufferState ↔
      streamedMaskN (doStateIgnoreFlag ver v
        (doStateInferState ver v (doStateReadScalars ver v s0))).bufferState := by
    rw [h3.2.2] at h4
    exact h4.2.2
  by_cases hm : streamedMaskN (doStateIgnoreFlag ver v
      (doStateInferState ver v (doStateReadScalars ver v s0))).bufferState
  · rw [if_pos hm, if_pos (hcond.mpr hm)]
  · rw [if_neg hm, if_neg (fun hx => hm (hcond.mp hx))]

/-- C8 witness: a version-2 record whose capacity covers the file infers
the non-streamed all-loaded state, so the cursor equals the restored
decode position. -/
theorem doStateRead_pre_v4_bufferPos_witness :
    (doStateRead 2 v8w atracInit).bufferPos =
      if streamedMaskN (doStateRead 2 v8w atracInit).bufferState
      then (doStateRead 2 v8w atracInit).dataOff else v8w.decodePos :=
  doStateRead_pre_v4_bufferPos 2 v8w atracInit (by decide)

/-- Casting a u32 below 2^31 to a C++ int keeps its value. -/
theorem toInt32_small (n : Nat) (h : n < 2147483648) : toInt32 n = n := by
  unfold toInt32
  rw [if_pos (by omega)]
  omega

/-- Converting a small nonnegative int to u32 keeps its value. -/
theorem u32i_natCast (n : Nat) (h : n < 4294967296) : u32i (n : Int) = n := by
  unfold u32i
  omega

/-- UpdateBufferState never touches the first-buffer descriptor. -/
theorem updateBufferState_first (s : Atrac) : (updateBufferState s).first = s.first := by
  unfold updateBufferState
  split_ifs <;> simp

/-- Field accounting for the clamp stage of SetData: the file size is
the clamped read size and both cursors equal it. -/
theorem setDataClamp_first (s : Atrac) (buffer readSize bufferSize : Nat) :
    (setDataClamp s buffer readSize bufferSize).first.filesize = s.first.filesize ∧
    (setDataClamp s buffer readSize bufferSize).first.size =
      (if readSize > s.first.filesize then s.first.filesize else readSize) ∧
    (setDataClamp s buffer readSize bufferSize).first.fileoffset =
      (if readSize > s.first.filesize then s.first.filesize else readSize) := by
  by_cases h : readSize > s.first.filesize
  · refine ⟨?_, ?_, ?_⟩ <;> simp [setDataClamp, h]
  · refine ⟨?_, ?_, ?_⟩ <;> simp [setDataClamp, h]

/-- The success tail of SetData leaves the first-buffer descriptor as
the prepare stages computed it. -/
theorem setDataFinish_first (s : Atrac) : (setDataFinish s).first = s.first := by
  simp only [setDataFinish]
  split_ifs <;> simp

/-- SetData establishes the buffer-descriptor invariant outright, for
any arguments: both cursors are set to the clamped read size, which is
the new file size or less. -/
theorem setData_inv (s : Atrac) (buffer readSize bufferSize c : Nat) :
    invFirst ((setData s buffer readSize bufferSize c).2).first := by
  have hcl := setDataClamp_first s buffer readSize bufferSize
  have hub := updateBufferState_first (setDataClamp s buffer readSize bufferSize)
  have hfin := setDataFinish_first (setDataPrepare s buffer readSize bufferSize)
  by_cases hcodec : (setDataPrepare s buffer readSize bufferSize).codecType ≠ PSP_MODE_AT_3 ∧
      (setDataPrepare s buffer readSize bufferSize).codecType ≠ PSP_MODE_AT_3_PLUS
  · simp only [setData, if_pos hcodec]
    show invFirst (setDataPrepare s buffer readSize bufferSize).first
    unfold setDataPrepare
    rw [hub]
    exact ⟨by rw [hcl.2.1, hcl.1]; split_ifs <;> omega,
           by rw [hcl.2.2, hcl.1]; split_ifs <;> omega⟩
  · simp only [setData, if_neg hcodec]
    show invFirst (setDataFinish (setDataPrepare s buffer readSize bufferSize)).first
    rw [hfin]
    unfold setDataPrepare
    rw [hub]
    exact ⟨by rw [hcl.2.1, hcl.1]; split_ifs <;> omega,
           by rw [hcl.2.2, hcl.1]; split_ifs <;> omega⟩

/-- The infinite-loop hack branch of AddStreamData seeks the decoder but
never touches the first-buffer descriptor. -/
theorem addStreamDataLoopHack_first (hack : Bool) (s : Atrac) :
    (addStreamDataLoopHack hack s).first = s.first := by
  simp only [addStreamDataLoopHack, seekToSample]
  split_ifs <;> simp

/-- Field accounting for the commit stage of AddStreamData: size grows
by the added bytes clamped at the file size, and the file offset moves to
the stream read offset plus the bytes actually readable there. -/
theorem addStreamDataCommit_first (s1 : Atrac) (ro n : Nat) :
    (addStreamDataCommit s1 ro n).first.filesize = s1.first.filesize ∧
    (addStreamDataCommit s1 ro n).first.size =
      (if u32 (s1.first.size + n) ≥ s1.first.filesize then s1.first.filesize
       else u32 (s1.first.size + n)) ∧
    (addStreamDataCommit s1 ro n).first.fileoffset =
      (if n > 0 then u32 (ro + min n (u32sub s1.first.filesize ro))
       else s1.first.fileoffset) := by
  simp only [addStreamDataCommit]
  split_ifs <;> simp_all

/-- A successful AddStreamData keeps size at or below the file size
unconditionally, and keeps the file offset at or below the file size
whenever the recomputed stream read offset is within the file. -/
theorem addStreamData_inv (s : Atrac) (hinv : invFirst s.first)
    (hfs : s.first.filesize < 2147483648) (hack : Bool) (n : Nat)
    (hsucc : (addStreamData hack s n).1 = 0) :
    (addStreamData hack s n).2.first.size ≤ (addStreamData hack s n).2.first.filesize ∧
    ((calculateStreamInfo s).2 ≤ s.first.filesize →
      (addStreamData hack s n).2.first.fileoffset ≤
        (addStreamData hack s n).2.first.filesize) := by
  have hp := calculateStreamInfo_preserves s
  have hc := addStreamDataCommit_first (calculateStreamInfo s).1 (calculateStreamInfo s).2 n
  by_cases hbig : n > (calculateStreamInfo s).1.first.writableBytes
  · exfalso
    simp only [addStreamData, if_pos hbig] at hsucc
    exact absurd hsucc (by decide)
  · simp only [addStreamData, if_neg hbig]
    rw [addStreamDataLoopHack_first]
    rw [hc.1, hc.2.1, hc.2.2, hp.1, hp.2.1, hp.2.2.1]
    refine ⟨?_, ?_⟩
    · split_ifs with h
      · omega
      · simp only [u32] at h ⊢
        omega
    · intro hro
      split_ifs with h1
      · simp only [u32, u32sub]
        omega
      · exact hinv.2

/-- AddStreamDataSas always clamps the resident size at the file size
(the file offset is NOT protected: see the C4 counterexample). -/
theorem addStreamDataSas_size (s : Atrac) (p n : Nat) :
    (addStreamDataSas s p n).2.first.size ≤ (addStreamDataSas s p n).2.first.filesize := by
  simp only [addStreamDataSas]
  split_ifs with h1 h2 <;> simp only [u32] at h1 ⊢ <;> omega

/-- The common tail of ResetPlayPosition never touches the first-buffer
descriptor. -/
theorem finishReset_first (s : Atrac) (x : Int) : (finishReset s x).first = s.first := by
  simp only [finishReset, seekToSample]
  split_ifs <;> simp

/-- In the halfway-buffer state the reset info advertises exactly the
unread remainder of the file as writable. -/
theorem getResetBufferInfo_halfway (s : Atrac) (sample : Int)
    (hH : s.bufferState = ATRAC_STATUS_HALFWAY_BUFFER) :
    (getResetBufferInfo s sample).first.writableBytes =
      u32sub s.first.filesize s.first.size := by
  have hA : s.bufferState ≠ ATRAC_STATUS_ALL_DATA_LOADED := by rw [hH]; decide
  simp only [getResetBufferInfo, if_neg hA, if_pos hH]

/-- Field accounting for the streamed branch of GetResetBufferInfo:
writable bytes and the computed file position. -/
theorem getResetBufferInfo_streamed (s : Atrac) (sample : Int)
    (hA : s.bufferState ≠ ATRAC_STATUS_ALL_DATA_LOADED)
    (hH : s.bufferState ≠ ATRAC_STATUS_HALFWAY_BUFFER) :
    (getResetBufferInfo s sample).first.writableBytes =
      min (u32sub s.first.filesize (u32i (toInt32 (fileOffsetBySample s
          (sample - s.firstSampleOffset - (samplesPerFrame s : Int))))))
        (s.bufferMaxSize / s.bytesPerFrame * s.bytesPerFrame) ∧
    (getResetBufferInfo s sample).first.filePos =
      u32i (if u32i sample < u32i s.firstSampleOffset ∧
          toInt32 (fileOffsetBySample s
            (sample - s.firstSampleOffset - (samplesPerFrame s : Int))) ≠ (s.dataOff : Int)
        then toInt32 (fileOffsetBySample s
            (sample - s.firstSampleOffset - (samplesPerFrame s : Int))) - s.bytesPerFrame
        else toInt32 (fileOffsetBySample s
            (sample - s.firstSampleOffset - (samplesPerFrame s : Int)))) := by
  simp only [getResetBufferInfo, if_neg hA, if_neg hH]
  exact ⟨trivial, trivial⟩

/-- Branchwise invariant preservation for a successful ResetPlayPosition:
the all-loaded branch leaves the descriptor alone; the halfway branch
preserves the invariant when the file offset is within the resident
bytes; the streamed branch preserves it when the seek target is within
the file. -/
theorem resetPlayPosition_inv (s : Atrac) (hinv : invFirst s.first)
    (hfs : s.first.filesize < 2147483648) (hbpf : s.bytesPerFrame < 2147483648)
    (sample b1i b2i : Int)
    (hsucc : (resetPlayPosition s sample b1i b2i).1 = 0) :
    (s.bufferState = ATRAC_STATUS_ALL_DATA_LOADED →
      invFirst (resetPlayPosition s sample b1i b2i).2.first) ∧
    (s.bufferState = ATRAC_STATUS_HALFWAY_BUFFER → s.first.fileoffset ≤ s.first.size →
      invFirst (resetPlayPosition s sample b1i b2i).2.first) ∧
    (s.bufferState ≠ ATRAC_STATUS_ALL_DATA_LOADED →
      s.bufferState ≠ ATRAC_STATUS_HALFWAY_BUFFER →
      fileOffsetBySample s (sample - s.firstSampleOffset - (samplesPerFrame s : Int)) ≤
        s.first.filesize →
      invFirst (resetPlayPosition s sample b1i b2i).2.first) := by
  by_cases hchk1 : u32i b1i < (getResetBufferInfo s sample).first.minWriteBytes ∨
      u32i b1i > (getResetBufferInfo s sample).first.writableBytes
  · exfalso
    simp only [resetPlayPosition, if_pos hchk1] at hsucc
    exact absurd hsucc (by decide)
  by_cases hchk2 : u32i b2i < (getResetBufferInfo s sample).second.minWriteBytes ∨
      u32i b2i > (getResetBufferInfo s sample).second.writableBytes
  · exfalso
    simp only [resetPlayPosition, if_neg hchk1, if_pos hchk2] at hsucc
    exact absurd hsucc (by decide)
  refine ⟨?_, ?_, ?_⟩
  · intro hA
    simp only [resetPlayPosition, if_neg hchk1, if_neg hchk2, if_pos hA]
    rw [finishReset_first]
    exact hinv
  · intro hH hfo
    have hA : s.bufferState ≠ ATRAC_STATUS_ALL_DATA_LOADED := by rw [hH]; decide
    simp only [resetPlayPosition, if_neg hchk1, if_neg hchk2, if_neg hA, if_pos hH]
    rw [finishReset_first]
    have hw : u32i b1i ≤ u32sub s.first.filesize s.first.size := by
      have h1 := (not_or.mp hchk1).2
      rw [getResetBufferInfo_halfway s sample hH] at h1
      omega
    have hwv : u32sub s.first.filesize s.first.size = s.first.filesize - s.first.size := by
      have hsz := hinv.1
      simp only [u32sub]
      omega
    rw [hwv] at hw
    have hs1 := hinv.1
    have hs2 := hinv.2
    simp only [resetHalfwayBody, invFirst]
    split_ifs with hb1 hcl hcl2 <;> (try simp at *) <;> (try simp only [u32] at *) <;> omega
  · intro hA hH hsfo
    by_cases hfp : (getResetBufferInfo s sample).first.filePos > s.first.filesize
    · exfalso
      simp only [resetPlayPosition, if_neg hchk1, if_neg hchk2, if_neg hA, if_neg hH,
        if_pos hfp] at hsucc
      exact absurd hsucc (by decide)
    simp only [resetPlayPosition, if_neg hchk1, if_neg hchk2, if_neg hA, if_neg hH,
      if_neg hfp]
    rw [finishReset_first]
    have hstr := getResetBufferInfo_streamed s sample hA hH
    have hto : toInt32 (fileOffsetBySample s
        (sample - s.firstSampleOffset - (samplesPerFrame s : Int))) =
        (fileOffsetBySample s (sample - s.firstSampleOffset - (samplesPerFrame s : Int)) : Int) :=
      toInt32_small _ (by omega)
    have hui : u32i ((fileOffsetBySample s
        (sample - s.firstSampleOffset - (samplesPerFrame s : Int)) : Nat) : Int) =
        fileOffsetBySample s (sample - s.firstSampleOffset - (samplesPerFrame s : Int)) :=
      u32i_natCast _ (by omega)
    have hw : u32i b1i ≤ s.first.filesize -
        fileOffsetBySample s (sample - s.firstSampleOffset - (samplesPerFrame s : Int)) := by
      have h1 := (not_or.mp hchk1).2
      rw [hstr.1, hto, hui] at h1
      have hus : u32sub s.first.filesize
          (fileOffsetBySample s (sample - s.firstSampleOffset - (samplesPerFrame s : Int))) =
          s.first.filesize -
            fileOffsetBySample s (sample - s.firstSampleOffset - (samplesPerFrame s : Int)) := by
        simp only [u32sub]
        omega
      rw [hus] at h1
      omega
    have hfple : (getResetBufferInfo s sample).first.filePos ≤
        fileOffsetBySample s (sample - s.firstSampleOffset - (samplesPerFrame s : Int)) := by
      rw [hstr.2, hto]
      split_ifs with hadj
      · by_cases hbp : s.bytesPerFrame ≤
            fileOffsetBySample s (sample - s.firstSampleOffset - (samplesPerFrame s : Int))
        · simp only [u32i]
          omega
        · exfalso
          rw [hstr.2, hto] at hfp
          rw [if_pos hadj] at hfp
          simp only [u32i] at hfp
          omega
      · rw [hui]
    have hs1 := hinv.1
    have hs2 := hinv.2
    simp only [resetStreamedBody, invFirst]
    split_ifs with hb1 <;> (try simp at *) <;> (try simp only [u32] at *) <;> omega

/-- C4 amended: given the buffer-descriptor invariant (size and file
offset at most the file size) and in-range u32 fields, SetData
establishes the invariant for any arguments; a successful AddStreamData
preserves the size half unconditionally and the file-offset half
whenever the recomputed stream read offset is within the file;
AddStreamDataSas preserves only the size half (its file-offset update
can overshoot the file size via u32 underflow of
filesize - fileoffset - FirstOffsetExtra at AtracCtx.cpp:733); and a
successful ResetPlayPosition preserves the invariant in the all-loaded
branch, in the halfway branch when the file offset is within the
resident bytes, and in the streamed branch when the seek target is
within the file. -/
theorem atrac_buffer_invariants (s : Atrac) (hinv : invFirst s.first)
    (hfs : s.first.filesize < 2147483648) (hbpf : s.bytesPerFrame < 2147483648) :
    bufferInvariantPreserved s := by
  refine ⟨?_, ?_, ?_, ?_⟩
  · intro buffer readSize bufferSize c
    exact setData_inv s buffer readSize bufferSize c
  · intro hack n hsucc
    exact addStreamData_inv s hinv hfs hack n hsucc
  · intro p n
    exact addStreamDataSas_size s p n
  · intro sample b1 b2 hsucc
    exact resetPlayPosition_inv s hinv hfs hbpf sample b1 b2 hsucc

/-- Witness for C4 at the freshly constructed context. -/
theorem atrac_buffer_invariants_witness : bufferInvariantPreserved atracInit :=
  atrac_buffer_invariants atracInit ⟨by decide, by decide⟩ (by decide) (by decide)

/-- C4 counterexample: two successful calls that break the claimed
invariant. AddStreamDataSas on a fully-streamed context pushes the file
offset past the file size (u32 underflow at AtracCtx.cpp:733), and the
halfway branch of ResetPlayPosition adds the written bytes to a file
offset already at the file size without any clamp. -/
theorem atrac_buffer_invariants_counterexample :
    (invFirst sSas.first ∧ (addStreamDataSas sSas 0 50).1 = 0 ∧
      ¬ invFirst (addStreamDataSas sSas 0 50).2.first) ∧
    (invFirst sRH.first ∧ (resetPlayPosition sRH 0 100 0).1 = 0 ∧
      ¬ invFirst (resetPlayPosition sRH 0 100 0).2.first) := by
  refine ⟨⟨⟨by decide, by decide⟩, by rfl, fun h => absurd h.2 (by decide)⟩,
    ⟨⟨by decide, by decide⟩, by rfl, fun h => absurd h.2 (by decide)⟩⟩
